import Mathlib

/-!
Verification development for the CovenantSQL worker-types message-integrity
layer: the canonical encoder, content hasher, signer/verifier primitive and
the five nested message kinds (Request, Response, Ack, NoAckReport,
AggrNoAckReport), together with the process-wide signature-bypass flag wired
up in cmd/cql/internal/cfg.go.

The sign/verify/serialize implementation itself is not part of the available
sources (only its test file is), so the operational definitions below are
modelled from the specification (spec.md sections 3, 4 and 7), keeping the
entity names, field names and error names used by the test file.
-/

namespace WorkerTypes

/-- Canonical byte sequences are modelled as lists of naturals (one entry per
byte; no arithmetic is ever performed on them, so no wrap-around modelling is
needed). -/
abbrev Bytes := List Nat

/-- Length-prefixed encoding of a raw byte block, modelled from the spec
(section 4.1): explicit length-prefixing of variable-length fields prevents
ambiguity/concatenation collisions. -/
def encBytes (b : Bytes) : Bytes := b.length :: b

/-- Encoding of a fixed-width machine integer field (uint64 in the source
protocol); a single symbolic byte suffices since no arithmetic is done on
encodings. -/
def encNat (n : Nat) : Bytes := [n]

/-- Canonical encoding of a string field: length-prefixed code points. -/
def encString (s : String) : Bytes := encBytes (s.data.map Char.toNat)

/-- Canonical encoding of a homogeneous sequence: element count followed by
the element encodings. -/
def encList (f : α → Bytes) (xs : List α) : Bytes :=
  xs.length :: (xs.map f).flatten

/-- Modelled from the spec (section 4.1): a nil/absent entity encodes to the
single reserved sentinel byte 0, distinct from any populated encoding, which
is tagged with a leading 1. -/
def encOpt (f : α → Bytes) : Option α → Bytes
  | none => [0]
  | some x => 1 :: f x

/-- Modelled from the spec (section 3 primitives): idealized asymmetric key
derivation; the public key corresponding to a private key.  The concrete
curve arithmetic lives in the excluded crypto/asymmetric collaborator. -/
def pubOf (priv : Nat) : Nat := priv + 1

/-- Modelled from the spec (section 3 primitives): an asymmetric signature
value; it records the signing key and the digest signed, and is valid over
exactly that digest and the corresponding public key. -/
structure Signature where
  signer : Nat
  digest : Bytes
deriving DecidableEq

/-- Canonical encoding of a signature value. -/
def encSignature (s : Signature) : Bytes := s.signer :: encBytes s.digest

/-- The two error kinds of the worker-types package, as asserted by the test
file (ErrHashVerification / ErrSignVerification). -/
inductive SigErr where
  | ErrHashVerification
  | ErrSignVerification
deriving DecidableEq

/-- Modelled from the spec (section 4.2, Content Hasher): the digest of a
canonical encoding.  The concrete hash function (crypto/hash.THashH) is an
excluded collaborator; it is idealized as a collision-free digest, realized
as the canonical encoding itself. -/
def thash (b : Bytes) : Bytes := b

/-- Modelled from the spec (section 4.2): recompute the digest of the given
canonical bytes and compare with the stored digest; mismatch is a
digest-verification failure. -/
def verifyHashB (b : Bytes) (expected : Bytes) : Except SigErr Unit :=
  if thash b = expected then .ok () else .error .ErrHashVerification

/-- Modelled from the spec (section 4.3 step 4 of verify and cfg.go's
bypass-signature flag): check the stored signature against the declared
signer key and the stored digest.  An absent signee or signature is a
signature-verification failure.  The `bypass` argument is the process-wide
`asymmetric.BypassSignature` flag bound to the `-bypass-signature` CLI flag
in cmd/cql/internal/cfg.go ("Disable signature sign and verify, for
testing"): when set, a present signature is accepted without checking. -/
def checkSig (bypass : Bool) (signee : Option Nat) (sig : Option Signature)
    (d : Bytes) : Except SigErr Unit :=
  match signee, sig with
  | some pk, some s =>
    match bypass with
    | true => .ok ()
    | false =>
      if pubOf s.signer = pk ∧ s.digest = d then .ok ()
      else .error .ErrSignVerification
  | _, _ => .error .ErrSignVerification

/-- Sequencing of fallible checks: the first failure aborts (fail-fast,
spec section 7). -/
def seqE (a b : Except SigErr Unit) : Except SigErr Unit :=
  match a with
  | .error e => .error e
  | .ok _ => b

/-- A single SQL query of a request payload (storage.Query: SQL text plus
bound arguments, opaque to this layer). -/
structure Query where
  pattern : String
  args : List String
deriving DecidableEq

/-- Canonical encoding of a query. -/
def encQuery (q : Query) : Bytes := encString q.pattern ++ encList encString q.args

/-- Kind of a request: read or write. -/
inductive QueryType where
  | ReadQuery
  | WriteQuery
deriving DecidableEq

/-- Canonical encoding of the query kind. -/
def encQueryType : QueryType → Bytes
  | .ReadQuery => [0]
  | .WriteQuery => [1]

/-- RequestPayload: the ordered queries of a request. -/
structure RequestPayload where
  queries : List Query
deriving DecidableEq

/-- Canonical encoding of a request payload. -/
def encRequestPayload (p : RequestPayload) : Bytes := encList encQuery p.queries

/-- RequestHeader: business fields of a request, including the payload-binding
fields batchCount and queriesHash set at sign time. -/
structure RequestHeader where
  queryType : QueryType
  nodeID : String
  databaseID : String
  connectionID : Nat
  seqNo : Nat
  timestamp : Nat
  batchCount : Nat
  queriesHash : Bytes
deriving DecidableEq

/-- Canonical encoding of a request header (declared field order). -/
def encRequestHeader (h : RequestHeader) : Bytes :=
  encQueryType h.queryType ++ encString h.nodeID ++ encString h.databaseID ++
  encNat h.connectionID ++ encNat h.seqNo ++ encNat h.timestamp ++
  encNat h.batchCount ++ encBytes h.queriesHash

/-- SignedRequestHeader: request header plus digest, declared signer key and
signature. -/
structure SignedRequestHeader where
  requestHeader : RequestHeader
  headerHash : Bytes
  signee : Option Nat
  signature : Option Signature
deriving DecidableEq

/-- Full canonical encoding of a signed request header (all fields). -/
def encSignedRequestHeader (sh : SignedRequestHeader) : Bytes :=
  encRequestHeader sh.requestHeader ++ encBytes sh.headerHash ++
  encOpt encNat sh.signee ++ encOpt encSignature sh.signature

/-- Modelled from the spec (section 4.3): the digest domain of a signed
request header binds the business fields together with the claimed signer
identity, excluding the header's own digest/signature fields. -/
def SignedRequestHeader.hashInput (sh : SignedRequestHeader) : Bytes :=
  encRequestHeader sh.requestHeader ++ encOpt encNat sh.signee

/-- Modelled from the spec (section 4.3 sign): fail if the signee is unset
(fail closed: the error branch yields no updated header, so no digest or
signature field is populated); otherwise store the header digest and the
signature of that digest under the private key. -/
def SignedRequestHeader.sign (priv : Nat) (sh : SignedRequestHeader) :
    Except SigErr SignedRequestHeader :=
  match sh.signee with
  | none => .error .ErrSignVerification
  | some _ =>
    let d := thash sh.hashInput
    .ok { sh with headerHash := d, signature := some ⟨priv, d⟩ }

/-- Modelled from the spec (section 4.3 verify): recompute the header digest
and compare, then check the signature against digest and signee. -/
def SignedRequestHeader.verify (bypass : Bool) (sh : SignedRequestHeader) :
    Except SigErr Unit :=
  seqE (verifyHashB sh.hashInput sh.headerHash)
    (checkSig bypass sh.signee sh.signature sh.headerHash)

/-- Request: signed header plus payload. -/
structure Request where
  header : SignedRequestHeader
  payload : RequestPayload
deriving DecidableEq

/-- Full canonical encoding of a request. -/
def encRequest (r : Request) : Bytes :=
  encSignedRequestHeader r.header ++ encRequestPayload r.payload

/-- Modelled from the spec (sections 4.3/4.4 sign for Request): set the
payload-binding fields (batchCount, queriesHash) from the payload, then sign
the header; an unset signee fails closed with no field populated. -/
def Request.sign (priv : Nat) (r : Request) : Except SigErr Request :=
  (SignedRequestHeader.sign priv
    { r.header with requestHeader := { r.header.requestHeader with
        batchCount := r.payload.queries.length,
        queriesHash := thash (encRequestPayload r.payload) } }).map
    (fun sh => { r with header := sh })

/-- Modelled from the spec (section 4.3 verify for Request): the payload
digest is checked independently of, and in addition to, the header digest. -/
def Request.verify (bypass : Bool) (r : Request) : Except SigErr Unit :=
  seqE (verifyHashB (encRequestPayload r.payload) r.header.requestHeader.queriesHash)
    (SignedRequestHeader.verify bypass r.header)

/-- One typed value of a response row (tagged union over the supported SQL
value kinds; a float is carried by its raw bit pattern). -/
inductive SQLValue where
  | vInt (i : Int)
  | vBool (b : Bool)
  | vTime (t : Nat)
  | vNull
  | vFloat (bits : Nat)
  | vBlob (b : Bytes)
  | vText (s : String)
deriving DecidableEq

/-- Canonical encoding of an integer value: sign tag plus magnitude. -/
def encInt : Int → Bytes
  | .ofNat n => [0, n]
  | .negSucc n => [1, n]

/-- Canonical encoding of a typed SQL value (kind tag, then payload). -/
def encSQLValue : SQLValue → Bytes
  | .vInt i => 0 :: encInt i
  | .vBool b => [1, if b then 1 else 0]
  | .vTime t => [2, t]
  | .vNull => [3]
  | .vFloat bits => [4, bits]
  | .vBlob b => 5 :: encBytes b
  | .vText s => 6 :: encString s

/-- ResponseRow: one ordered row of typed values. -/
structure ResponseRow where
  values : List SQLValue
deriving DecidableEq

/-- Canonical encoding of a response row. -/
def encResponseRow (r : ResponseRow) : Bytes := encList encSQLValue r.values

/-- ResponsePayload: ordered column names, declared types and rows. -/
structure ResponsePayload where
  columns : List String
  declTypes : List String
  rows : List ResponseRow
deriving DecidableEq

/-- Canonical encoding of a response payload. -/
def encResponsePayload (p : ResponsePayload) : Bytes :=
  encList encString p.columns ++ encList encString p.declTypes ++
  encList encResponseRow p.rows

/-- ResponseHeader: business fields of a response, embedding the signed
header of the original request. -/
structure ResponseHeader where
  request : SignedRequestHeader
  nodeID : String
  timestamp : Nat
  rowCount : Nat
  dataHash : Bytes
deriving DecidableEq

/-- Canonical encoding of a response header (declared field order; the
embedded signed request header is included in full). -/
def encResponseHeader (h : ResponseHeader) : Bytes :=
  encSignedRequestHeader h.request ++ encString h.nodeID ++
  encNat h.timestamp ++ encNat h.rowCount ++ encBytes h.dataHash

/-- SignedResponseHeader: response header plus digest, signer key and
signature. -/
structure SignedResponseHeader where
  responseHeader : ResponseHeader
  headerHash : Bytes
  signee : Option Nat
  signature : Option Signature
deriving DecidableEq

/-- Full canonical encoding of a signed response header. -/
def encSignedResponseHeader (sh : SignedResponseHeader) : Bytes :=
  encResponseHeader sh.responseHeader ++ encBytes sh.headerHash ++
  encOpt encNat sh.signee ++ encOpt encSignature sh.signature

/-- Digest domain of a signed response header: business fields plus claimed
signer identity. -/
def SignedResponseHeader.hashInput (sh : SignedResponseHeader) : Bytes :=
  encResponseHeader sh.responseHeader ++ encOpt encNat sh.signee

/-- Modelled from the spec (section 4.3 sign): precondition signee set, then
recursively verify the embedded signed request header (propagating its
failure unchanged), then store digest and signature. -/
def SignedResponseHeader.sign (bypass : Bool) (priv : Nat)
    (sh : SignedResponseHeader) : Except SigErr SignedResponseHeader :=
  match sh.signee with
  | none => .error .ErrSignVerification
  | some _ =>
    match sh.responseHeader.request.verify bypass with
    | .error e => .error e
    | .ok _ =>
      let d := thash sh.hashInput
      .ok { sh with headerHash := d, signature := some ⟨priv, d⟩ }

/-- Modelled from the spec (section 4.3 verify): embedded request first
(fail-fast), then own digest, then signature. -/
def SignedResponseHeader.verify (bypass : Bool) (sh : SignedResponseHeader) :
    Except SigErr Unit :=
  seqE (sh.responseHeader.request.verify bypass)
    (seqE (verifyHashB sh.hashInput sh.headerHash)
      (checkSig bypass sh.signee sh.signature sh.headerHash))

/-- Response: signed header plus payload. -/
structure Response where
  header : SignedResponseHeader
  payload : ResponsePayload
deriving DecidableEq

/-- Full canonical encoding of a response. -/
def encResponse (r : Response) : Bytes :=
  encSignedResponseHeader r.header ++ encResponsePayload r.payload

/-- Modelled from the spec (sections 4.3/4.4 sign for Response): store the
payload digest in dataHash, then sign the header (which checks the signee
precondition and recursively verifies the embedded request). -/
def Response.sign (bypass : Bool) (priv : Nat) (r : Response) :
    Except SigErr Response :=
  (SignedResponseHeader.sign bypass priv
    { r.header with responseHeader := { r.header.responseHeader with
        dataHash := thash (encResponsePayload r.payload) } }).map
    (fun sh => { r with header := sh })

/-- Modelled from the spec (section 4.3 verify for Response): embedded
request, then payload digest, then own digest, then signature. -/
def Response.verify (bypass : Bool) (r : Response) : Except SigErr Unit :=
  seqE (r.header.responseHeader.request.verify bypass)
    (seqE (verifyHashB (encResponsePayload r.payload) r.header.responseHeader.dataHash)
      (seqE (verifyHashB r.header.hashInput r.header.headerHash)
        (checkSig bypass r.header.signee r.header.signature r.header.headerHash)))

/-- AckHeader: business fields of an acknowledgement, embedding the signed
header of the acknowledged response. -/
structure AckHeader where
  response : SignedResponseHeader
  nodeID : String
  timestamp : Nat
deriving DecidableEq

/-- Canonical encoding of an ack header. -/
def encAckHeader (h : AckHeader) : Bytes :=
  encSignedResponseHeader h.response ++ encString h.nodeID ++ encNat h.timestamp

/-- SignedAckHeader: ack header plus digest, signer key and signature. -/
structure SignedAckHeader where
  ackHeader : AckHeader
  headerHash : Bytes
  signee : Option Nat
  signature : Option Signature
deriving DecidableEq

/-- Full canonical encoding of a signed ack header. -/
def encSignedAckHeader (sh : SignedAckHeader) : Bytes :=
  encAckHeader sh.ackHeader ++ encBytes sh.headerHash ++
  encOpt encNat sh.signee ++ encOpt encSignature sh.signature

/-- Digest domain of a signed ack header. -/
def SignedAckHeader.hashInput (sh : SignedAckHeader) : Bytes :=
  encAckHeader sh.ackHeader ++ encOpt encNat sh.signee

/-- Modelled from the spec (section 4.3 sign): signee precondition, embedded
response verification, then digest and signature. -/
def SignedAckHeader.sign (bypass : Bool) (priv : Nat) (sh : SignedAckHeader) :
    Except SigErr SignedAckHeader :=
  match sh.signee with
  | none => .error .ErrSignVerification
  | some _ =>
    match sh.ackHeader.response.verify bypass with
    | .error e => .error e
    | .ok _ =>
      let d := thash sh.hashInput
      .ok { sh with headerHash := d, signature := some ⟨priv, d⟩ }

/-- Modelled from the spec (section 4.3 verify): embedded response first,
then own digest, then signature. -/
def SignedAckHeader.verify (bypass : Bool) (sh : SignedAckHeader) :
    Except SigErr Unit :=
  seqE (sh.ackHeader.response.verify bypass)
    (seqE (verifyHashB sh.hashInput sh.headerHash)
      (checkSig bypass sh.signee sh.signature sh.headerHash))

/-- Ack: a signed ack header (no payload). -/
structure Ack where
  header : SignedAckHeader
deriving DecidableEq

/-- Full canonical encoding of an ack. -/
def encAck (a : Ack) : Bytes := encSignedAckHeader a.header

/-- Sign an ack: delegates to the signed ack header. -/
def Ack.sign (bypass : Bool) (priv : Nat) (a : Ack) : Except SigErr Ack :=
  (SignedAckHeader.sign bypass priv a.header).map (fun sh => ⟨sh⟩)

/-- Verify an ack: delegates to the signed ack header. -/
def Ack.verify (bypass : Bool) (a : Ack) : Except SigErr Unit :=
  a.header.verify bypass

/-- NoAckReportHeader: business fields of a no-ack report, embedding the
signed header of the unacknowledged response. -/
structure NoAckReportHeader where
  nodeID : String
  timestamp : Nat
  response : SignedResponseHeader
deriving DecidableEq

/-- Canonical encoding of a no-ack report header. -/
def encNoAckReportHeader (h : NoAckReportHeader) : Bytes :=
  encString h.nodeID ++ encNat h.timestamp ++ encSignedResponseHeader h.response

/-- SignedNoAckReportHeader: report header plus digest, signer key and
signature. -/
structure SignedNoAckReportHeader where
  noAckReportHeader : NoAckReportHeader
  headerHash : Bytes
  signee : Option Nat
  signature : Option Signature
deriving DecidableEq

/-- Full canonical encoding of a signed no-ack report header. -/
def encSignedNoAckReportHeader (sh : SignedNoAckReportHeader) : Bytes :=
  encNoAckReportHeader sh.noAckReportHeader ++ encBytes sh.headerHash ++
  encOpt encNat sh.signee ++ encOpt encSignature sh.signature

/-- Digest domain of a signed no-ack report header. -/
def SignedNoAckReportHeader.hashInput (sh : SignedNoAckReportHeader) : Bytes :=
  encNoAckReportHeader sh.noAckReportHeader ++ encOpt encNat sh.signee

/-- Modelled from the spec (section 4.3 sign): signee precondition, embedded
response verification, then digest and signature. -/
def SignedNoAckReportHeader.sign (bypass : Bool) (priv : Nat)
    (sh : SignedNoAckReportHeader) : Except SigErr SignedNoAckReportHeader :=
  match sh.signee with
  | none => .error .ErrSignVerification
  | some _ =>
    match sh.noAckReportHeader.response.verify bypass with
    | .error e => .error e
    | .ok _ =>
      let d := thash sh.hashInput
      .ok { sh with headerHash := d, signature := some ⟨priv, d⟩ }

/-- Modelled from the spec (section 4.3 verify): embedded response first,
then own digest, then signature. -/
def SignedNoAckReportHeader.verify (bypass : Bool)
    (sh : SignedNoAckReportHeader) : Except SigErr Unit :=
  seqE (sh.noAckReportHeader.response.verify bypass)
    (seqE (verifyHashB sh.hashInput sh.headerHash)
      (checkSig bypass sh.signee sh.signature sh.headerHash))

/-- NoAckReport: a signed no-ack report header (no payload). -/
structure NoAckReport where
  header : SignedNoAckReportHeader
deriving DecidableEq

/-- Full canonical encoding of a no-ack report. -/
def encNoAckReport (r : NoAckReport) : Bytes := encSignedNoAckReportHeader r.header

/-- Sign a no-ack report: delegates to the signed report header. -/
def NoAckReport.sign (bypass : Bool) (priv : Nat) (r : NoAckReport) :
    Except SigErr NoAckReport :=
  (SignedNoAckReportHeader.sign bypass priv r.header).map (fun sh => ⟨sh⟩)

/-- Verify a no-ack report: delegates to the signed report header. -/
def NoAckReport.verify (bypass : Bool) (r : NoAckReport) : Except SigErr Unit :=
  r.header.verify bypass

/-- Role of a member inside the cluster membership snapshot. -/
inductive ServerRole where
  | Leader
  | Follower
deriving DecidableEq

/-- Canonical encoding of a server role. -/
def encServerRole : ServerRole → Bytes
  | .Leader => [0]
  | .Follower => [1]

/-- A member of the cluster membership snapshot (kayak.Server). -/
structure Server where
  role : ServerRole
  id : String
deriving DecidableEq

/-- Canonical encoding of a server descriptor. -/
def encServer (s : Server) : Bytes := encServerRole s.role ++ encString s.id

/-- The cluster membership snapshot (kayak.Peers): term, leader, member set
and an optional self-signature; carried by value, not recursively verified
by this layer (spec section 4.5). -/
structure Peers where
  term : Nat
  leader : Option Server
  servers : List Server
  pubKey : Option Nat
  signature : Option Signature
deriving DecidableEq

/-- Canonical encoding of a peers snapshot. -/
def encPeers (p : Peers) : Bytes :=
  encNat p.term ++ encOpt encServer p.leader ++ encList encServer p.servers ++
  encOpt encNat p.pubKey ++ encOpt encSignature p.signature

/-- AggrNoAckReportHeader: business fields of an aggregated no-ack report:
aggregating node, timestamp, the ordered embedded signed report headers and
the peers snapshot. -/
structure AggrNoAckReportHeader where
  nodeID : String
  timestamp : Nat
  reports : List SignedNoAckReportHeader
  peers : Option Peers
deriving DecidableEq

/-- Canonical encoding of an aggregated no-ack report header. -/
def encAggrNoAckReportHeader (h : AggrNoAckReportHeader) : Bytes :=
  encString h.nodeID ++ encNat h.timestamp ++
  encList encSignedNoAckReportHeader h.reports ++ encOpt encPeers h.peers

/-- SignedAggrNoAckReportHeader: aggregate header plus digest, signer key and
signature. -/
structure SignedAggrNoAckReportHeader where
  aggrNoAckReportHeader : AggrNoAckReportHeader
  headerHash : Bytes
  signee : Option Nat
  signature : Option Signature
deriving DecidableEq

/-- Full canonical encoding of a signed aggregate header. -/
def encSignedAggrNoAckReportHeader (sh : SignedAggrNoAckReportHeader) : Bytes :=
  encAggrNoAckReportHeader sh.aggrNoAckReportHeader ++ encBytes sh.headerHash ++
  encOpt encNat sh.signee ++ encOpt encSignature sh.signature

/-- Digest domain of a signed aggregate header. -/
def SignedAggrNoAckReportHeader.hashInput (sh : SignedAggrNoAckReportHeader) : Bytes :=
  encAggrNoAckReportHeader sh.aggrNoAckReportHeader ++ encOpt encNat sh.signee

/-- Recursively verify every embedded signed no-ack report header, failing
fast on the first failure (spec sections 4.3/4.4). -/
def verifyReports (bypass : Bool) : List SignedNoAckReportHeader → Except SigErr Unit
  | [] => .ok ()
  | r :: rs => seqE (r.verify bypass) (verifyReports bypass rs)

/-- Modelled from the spec (section 4.3 sign): signee precondition, recursive
verification of every embedded report, then digest and signature. -/
def SignedAggrNoAckReportHeader.sign (bypass : Bool) (priv : Nat)
    (sh : SignedAggrNoAckReportHeader) : Except SigErr SignedAggrNoAckReportHeader :=
  match sh.signee with
  | none => .error .ErrSignVerification
  | some _ =>
    match verifyReports bypass sh.aggrNoAckReportHeader.reports with
    | .error e => .error e
    | .ok _ =>
      let d := thash sh.hashInput
      .ok { sh with headerHash := d, signature := some ⟨priv, d⟩ }

/-- Modelled from the spec (section 4.3 verify): every embedded report first,
then own digest, then signature.  The peers snapshot is carried by value and
not part of the recursive chain (spec section 4.5). -/
def SignedAggrNoAckReportHeader.verify (bypass : Bool)
    (sh : SignedAggrNoAckReportHeader) : Except SigErr Unit :=
  seqE (verifyReports bypass sh.aggrNoAckReportHeader.reports)
    (seqE (verifyHashB sh.hashInput sh.headerHash)
      (checkSig bypass sh.signee sh.signature sh.headerHash))

/-- AggrNoAckReport: a signed aggregate header (no payload). -/
structure AggrNoAckReport where
  header : SignedAggrNoAckReportHeader
deriving DecidableEq

/-- Full canonical encoding of an aggregated no-ack report. -/
def encAggrNoAckReport (r : AggrNoAckReport) : Bytes :=
  encSignedAggrNoAckReportHeader r.header

/-- Sign an aggregated no-ack report: delegates to the signed header. -/
def AggrNoAckReport.sign (bypass : Bool) (priv : Nat) (r : AggrNoAckReport) :
    Except SigErr AggrNoAckReport :=
  (SignedAggrNoAckReportHeader.sign bypass priv r.header).map (fun sh => ⟨sh⟩)

/-- Verify an aggregated no-ack report: delegates to the signed header. -/
def AggrNoAckReport.verify (bypass : Bool) (r : AggrNoAckReport) :
    Except SigErr Unit :=
  r.header.verify bypass

/-- Nil-receiver-safe wire serialization of a request (test: a nil value
serializes to the single sentinel byte). -/
def Request.serialize (r : Option Request) : Bytes := encOpt encRequest r

/-- Nil-receiver-safe wire serialization of a request header. -/
def RequestHeader.serialize (h : Option RequestHeader) : Bytes :=
  encOpt encRequestHeader h

/-- Nil-receiver-safe wire serialization of a signed request header. -/
def SignedRequestHeader.serialize (h : Option SignedRequestHeader) : Bytes :=
  encOpt encSignedRequestHeader h

/-- Nil-receiver-safe wire serialization of a request payload. -/
def RequestPayload.serialize (p : Option RequestPayload) : Bytes :=
  encOpt encRequestPayload p

/-- Nil-receiver-safe wire serialization of a response. -/
def Response.serialize (r : Option Response) : Bytes := encOpt encResponse r

/-- Nil-receiver-safe wire serialization of a response header. -/
def ResponseHeader.serialize (h : Option ResponseHeader) : Bytes :=
  encOpt encResponseHeader h

/-- Nil-receiver-safe wire serialization of a response payload. -/
def ResponsePayload.serialize (p : Option ResponsePayload) : Bytes :=
  encOpt encResponsePayload p

/-- Nil-receiver-safe wire serialization of a response row. -/
def ResponseRow.serialize (r : Option ResponseRow) : Bytes :=
  encOpt encResponseRow r

/-- Nil-receiver-safe wire serialization of a signed response header. -/
def SignedResponseHeader.serialize (h : Option SignedResponseHeader) : Bytes :=
  encOpt encSignedResponseHeader h

/-- Nil-receiver-safe wire serialization of an ack. -/
def Ack.serialize (a : Option Ack) : Bytes := encOpt encAck a

/-- Nil-receiver-safe wire serialization of an ack header. -/
def AckHeader.serialize (h : Option AckHeader) : Bytes := encOpt encAckHeader h

/-- Nil-receiver-safe wire serialization of a signed ack header. -/
def SignedAckHeader.serialize (h : Option SignedAckHeader) : Bytes :=
  encOpt encSignedAckHeader h

/-- Nil-receiver-safe wire serialization of a no-ack report. -/
def NoAckReport.serialize (r : Option NoAckReport) : Bytes :=
  encOpt encNoAckReport r

/-- Nil-receiver-safe wire serialization of a no-ack report header. -/
def NoAckReportHeader.serialize (h : Option NoAckReportHeader) : Bytes :=
  encOpt encNoAckReportHeader h

/-- Nil-receiver-safe wire serialization of a signed no-ack report header. -/
def SignedNoAckReportHeader.serialize (h : Option SignedNoAckReportHeader) : Bytes :=
  encOpt encSignedNoAckReportHeader h

/-- Nil-receiver-safe wire serialization of an aggregated no-ack report. -/
def AggrNoAckReport.serialize (r : Option AggrNoAckReport) : Bytes :=
  encOpt encAggrNoAckReport r

/-- Nil-receiver-safe wire serialization of an aggregate header. -/
def AggrNoAckReportHeader.serialize (h : Option AggrNoAckReportHeader) : Bytes :=
  encOpt encAggrNoAckReportHeader h

/-- Nil-receiver-safe wire serialization of a signed aggregate header. -/
def SignedAggrNoAckReportHeader.serialize (h : Option SignedAggrNoAckReportHeader) :
    Bytes :=
  encOpt encSignedAggrNoAckReportHeader h

/-- Mutate the timestamp business field of a signed request header. -/
def setSRHTimestamp (sh : SignedRequestHeader) (t : Nat) : SignedRequestHeader :=
  { sh with requestHeader := { sh.requestHeader with timestamp := t } }

/-- Mutate the query-type business field of a signed request header. -/
def setSRHQueryType (sh : SignedRequestHeader) (qt : QueryType) : SignedRequestHeader :=
  { sh with requestHeader := { sh.requestHeader with queryType := qt } }

/-- Mutate the batch-count business field of a signed request header. -/
def setSRHBatchCount (sh : SignedRequestHeader) (n : Nat) : SignedRequestHeader :=
  { sh with requestHeader := { sh.requestHeader with batchCount := n } }

/-- Replace the embedded signed request header of a signed response header. -/
def setSResHRequest (sh : SignedResponseHeader) (req : SignedRequestHeader) :
    SignedResponseHeader :=
  { sh with responseHeader := { sh.responseHeader with request := req } }

/-- Mutate the row-count business field of a signed response header. -/
def setSResHRowCount (sh : SignedResponseHeader) (n : Nat) : SignedResponseHeader :=
  { sh with responseHeader := { sh.responseHeader with rowCount := n } }

/-- Replace the embedded signed response header of an ack. -/
def Ack.setResponse (a : Ack) (resp : SignedResponseHeader) : Ack :=
  ⟨{ a.header with ackHeader := { a.header.ackHeader with response := resp } }⟩

/-- Mutate the query-type field of the request embedded two layers down in an
ack (TestAck_Sign, "request change"). -/
def Ack.setRequestQueryType (a : Ack) (qt : QueryType) : Ack :=
  a.setResponse
    (setSResHRequest a.header.ackHeader.response
      (setSRHQueryType a.header.ackHeader.response.responseHeader.request qt))

/-- Mutate the batch-count field of the request embedded two layers down in
an ack. -/
def Ack.setRequestBatchCount (a : Ack) (n : Nat) : Ack :=
  a.setResponse
    (setSResHRequest a.header.ackHeader.response
      (setSRHBatchCount a.header.ackHeader.response.responseHeader.request n))

/-- Mutate the row-count field of the response embedded in an ack
(TestAck_Sign, "response change"). -/
def Ack.setResponseRowCount (a : Ack) (n : Nat) : Ack :=
  a.setResponse (setSResHRowCount a.header.ackHeader.response n)

/-- Mutate the ack's own timestamp business field (TestAck_Sign, "header
change"). -/
def Ack.setTimestamp (a : Ack) (t : Nat) : Ack :=
  ⟨{ a.header with ackHeader := { a.header.ackHeader with timestamp := t } }⟩

/-- Append a query to a request's payload (TestRequest_Sign, "header change
with invalid queries hash"). -/
def Request.appendQuery (r : Request) (q : Query) : Request :=
  { r with payload := ⟨r.payload.queries ++ [q]⟩ }

/-- Mutate the timestamp business field of a signed no-ack report header
(TestAggrNoAckReport_Sign, "report change"). -/
def setSNARHTimestamp (sh : SignedNoAckReportHeader) (t : Nat) :
    SignedNoAckReportHeader :=
  { sh with noAckReportHeader := { sh.noAckReportHeader with timestamp := t } }

/-- Mutate the row-count field of the response embedded in a signed no-ack
report header. -/
def setSNARHResponseRowCount (sh : SignedNoAckReportHeader) (n : Nat) :
    SignedNoAckReportHeader :=
  { sh with noAckReportHeader :=
      { sh.noAckReportHeader with
        response := setSResHRowCount sh.noAckReportHeader.response n } }

/-- Mutate the query-type field of the request embedded three layers down in
a signed no-ack report header. -/
def setSNARHRequestQueryType (sh : SignedNoAckReportHeader) (qt : QueryType) :
    SignedNoAckReportHeader :=
  { sh with noAckReportHeader :=
      { sh.noAckReportHeader with
        response := setSResHRequest sh.noAckReportHeader.response
          (setSRHQueryType sh.noAckReportHeader.response.responseHeader.request qt) } }

/-- Replace the report list of an aggregated no-ack report. -/
def AggrNoAckReport.withReports (g : AggrNoAckReport)
    (rs : List SignedNoAckReportHeader) : AggrNoAckReport :=
  ⟨{ g.header with aggrNoAckReportHeader :=
      { g.header.aggrNoAckReportHeader with reports := rs } }⟩

/-- Private key used by the concrete witnesses (test getCommKeys analogue). -/
def privKey0 : Nat := 41

/-- Public key corresponding to privKey0. -/
def pubKey0 : Nat := pubOf privKey0

/-- A concrete request header (TestSignedRequestHeader_Sign shape). -/
def requestHeader0 : RequestHeader :=
  { queryType := .WriteQuery, nodeID := "node", databaseID := "db1",
    connectionID := 1, seqNo := 2, timestamp := 3, batchCount := 0,
    queriesHash := [] }

/-- A concrete unsigned signed-request-header with the signee set. -/
def signedRequestHeader0 : SignedRequestHeader :=
  { requestHeader := requestHeader0, headerHash := [], signee := some pubKey0,
    signature := none }

/-- The signed form of signedRequestHeader0. -/
def signedRequestHeader1 : SignedRequestHeader :=
  ((signedRequestHeader0.sign privKey0).toOption).getD signedRequestHeader0

/-- A concrete request with a two-query payload (TestRequest_Sign shape). -/
def request0 : Request :=
  { header := signedRequestHeader0,
    payload := ⟨[{ pattern := "INSERT INTO test VALUES(1)", args := [] },
                 { pattern := "INSERT INTO test VALUES(2)", args := [] }]⟩ }

/-- The signed form of request0. -/
def request1 : Request := ((request0.sign privKey0).toOption).getD request0

/-- A concrete response header embedding the signed request header. -/
def responseHeader0 : ResponseHeader :=
  { request := signedRequestHeader1, nodeID := "node2", timestamp := 4,
    rowCount := 1, dataHash := [] }

/-- A concrete unsigned signed-response-header with the signee set. -/
def signedResponseHeader0 : SignedResponseHeader :=
  { responseHeader := responseHeader0, headerHash := [], signee := some pubKey0,
    signature := none }

/-- The signed form of signedResponseHeader0. -/
def signedResponseHeader1 : SignedResponseHeader :=
  ((signedResponseHeader0.sign false privKey0).toOption).getD signedResponseHeader0

/-- A concrete response payload (one column, one row). -/
def responsePayload0 : ResponsePayload :=
  { columns := ["test_integer"], declTypes := ["INTEGER"],
    rows := [⟨[.vInt 1]⟩] }

/-- A concrete response over the signed request header. -/
def response0 : Response :=
  { header := signedResponseHeader0, payload := responsePayload0 }

/-- The signed form of response0. -/
def response1 : Response :=
  ((response0.sign false privKey0).toOption).getD response0

/-- A concrete unsigned ack embedding the signed response header
(TestAck_Sign shape). -/
def ack0 : Ack :=
  ⟨{ ackHeader := { response := signedResponseHeader1, nodeID := "node",
                    timestamp := 5 },
     headerHash := [], signee := some pubKey0, signature := none }⟩

/-- The signed form of ack0. -/
def ack1 : Ack := ((ack0.sign false privKey0).toOption).getD ack0

/-- A concrete unsigned no-ack report header over the signed response. -/
def signedNoAckReportHeader0 : SignedNoAckReportHeader :=
  { noAckReportHeader := { nodeID := "node2", timestamp := 6,
                           response := signedResponseHeader1 },
    headerHash := [], signee := some pubKey0, signature := none }

/-- The signed form of signedNoAckReportHeader0. -/
def signedNoAckReportHeader1 : SignedNoAckReportHeader :=
  ((signedNoAckReportHeader0.sign false privKey0).toOption).getD
    signedNoAckReportHeader0

/-- A concrete peers snapshot (TestAggrNoAckReport_Sign shape). -/
def peers0 : Peers :=
  { term := 1, leader := some { role := .Leader, id := "node3" },
    servers := [{ role := .Leader, id := "node3" },
                { role := .Follower, id := "node2" }],
    pubKey := none, signature := none }

/-- A concrete unsigned aggregated no-ack report with one signed report. -/
def aggr0 : AggrNoAckReport :=
  ⟨{ aggrNoAckReportHeader := { nodeID := "node3", timestamp := 7,
                                reports := [signedNoAckReportHeader1],
                                peers := some peers0 },
     headerHash := [], signee := some pubKey0, signature := none }⟩

/-- The signed form of aggr0. -/
def aggr1 : AggrNoAckReport := ((aggr0.sign false privKey0).toOption).getD aggr0

/-- The digest a correctly signed signedRequestHeader0 stores. -/
def badHash : Bytes :=
  encRequestHeader requestHeader0 ++ encOpt encNat (some pubKey0)

/-- A signed request header whose digest is correct but whose signature was
produced by a key whose public key differs from the declared signee: its
verification outcome depends on the process-wide bypass flag. -/
def srhBad0 : SignedRequestHeader :=
  { requestHeader := requestHeader0, headerHash := badHash,
    signee := some pubKey0, signature := some ⟨39, badHash⟩ }

/-- A second unsigned request header identical to signedRequestHeader0 up to
the declared signee. -/
def srhAlt0 : SignedRequestHeader :=
  { requestHeader := requestHeader0, headerHash := [], signee := some 43,
    signature := none }

/-- The signed form of srhAlt0. -/
def srhAlt1 : SignedRequestHeader :=
  ((srhAlt0.sign privKey0).toOption).getD srhAlt0

/-- A request header with the signee unset. -/
def srhNoSignee0 : SignedRequestHeader :=
  { requestHeader := requestHeader0, headerHash := [], signee := none,
    signature := none }

/-- A request whose header has the signee unset. -/
def requestNoSignee0 : Request :=
  { header := srhNoSignee0, payload := request0.payload }

/-- A response whose embedded request header was never signed. -/
def responseBad0 : Response :=
  { header := { responseHeader := { request := signedRequestHeader0,
                                    nodeID := "node2", timestamp := 4,
                                    rowCount := 1, dataHash := [] },
                headerHash := [], signee := some pubKey0, signature := none },
    payload := responsePayload0 }

/-- An ack whose embedded response header was never signed. -/
def ackBad0 : Ack :=
  ⟨{ ackHeader := { response := signedResponseHeader0, nodeID := "node",
                    timestamp := 5 },
     headerHash := [], signee := some pubKey0, signature := none }⟩

/-- A no-ack report whose embedded response header was never signed. -/
def noAckBad0 : NoAckReport :=
  ⟨{ noAckReportHeader := { nodeID := "node2", timestamp := 6,
                            response := signedResponseHeader0 },
     headerHash := [], signee := some pubKey0, signature := none }⟩

/-- An aggregated report containing an unsigned report header. -/
def aggrBad0 : AggrNoAckReport :=
  ⟨{ aggrNoAckReportHeader := { nodeID := "node3", timestamp := 7,
                                reports := [signedNoAckReportHeader0],
                                peers := some peers0 },
     headerHash := [], signee := some pubKey0, signature := none }⟩

/-- A concrete unsigned no-ack report over the signed report header. -/
def noAck0 : NoAckReport := ⟨signedNoAckReportHeader0⟩

/-- The signed form of noAck0. -/
def noAck1 : NoAckReport :=
  ((noAck0.sign false privKey0).toOption).getD noAck0

set_option maxRecDepth 20000

/-- Sequencing a successful first check just runs the second. -/
theorem seqE_ok_left (b : Except SigErr Unit) : seqE (.ok ()) b = b := rfl

/-- Sequencing a failed first check propagates its error. -/
theorem seqE_error_left (e : SigErr) (b : Except SigErr Unit) :
    seqE (.error e) b = .error e := rfl

/-- A sequenced check succeeds iff both parts succeed. -/
theorem seqE_ok_iff {a b : Except SigErr Unit} :
    seqE a b = .ok () ↔ a = .ok () ∧ b = .ok () := by
  cases a with
  | error e => simp [seqE]
  | ok u => cases u; simp [seqE]

/-- A sequenced check fails iff the first part fails, or the first succeeds
and the second fails. -/
theorem seqE_error_iff {a b : Except SigErr Unit} {e : SigErr} :
    seqE a b = .error e ↔ a = .error e ∨ (a = .ok () ∧ b = .error e) := by
  cases a with
  | error e' => simp [seqE]
  | ok u => cases u; simp [seqE]

/-- The digest check succeeds iff the recomputed digest equals the stored
one. -/
theorem verifyHashB_ok_iff {b d : Bytes} : verifyHashB b d = .ok () ↔ b = d := by
  unfold verifyHashB thash
  split <;> simp_all

/-- A failed digest check is always a digest-verification failure. -/
theorem verifyHashB_error_iff {b d : Bytes} {e : SigErr} :
    verifyHashB b d = .error e ↔ b ≠ d ∧ e = .ErrHashVerification := by
  unfold verifyHashB thash
  split <;> simp_all [eq_comm]

/-- Digest mismatch yields the digest-verification failure. -/
theorem verifyHashB_error_of_ne {b d : Bytes} (h : b ≠ d) :
    verifyHashB b d = .error .ErrHashVerification := by
  unfold verifyHashB thash
  exact if_neg h

/-- A signature produced by the private key matching the declared signee
passes the signature check, for either value of the bypass flag. -/
theorem checkSig_ok_of (bypass : Bool) (priv : Nat) (d : Bytes) :
    checkSig bypass (some (pubOf priv)) (some ⟨priv, d⟩) d = .ok () := by
  cases bypass <;> simp [checkSig]

/-- Reduction of a signed-request-header sign call when the signee is set. -/
theorem SRH_sign_eq (priv : Nat) (sh : SignedRequestHeader) (pk : Nat)
    (h : sh.signee = some pk) :
    sh.sign priv =
      .ok { sh with headerHash := sh.hashInput,
                    signature := some ⟨priv, sh.hashInput⟩ } := by
  unfold SignedRequestHeader.sign
  rw [h]
  rfl

/-- A signed-request-header sign call with the signee unset fails with the
signature-verification error and populates nothing. -/
theorem SRH_sign_none (priv : Nat) (sh : SignedRequestHeader)
    (h : sh.signee = none) : sh.sign priv = .error .ErrSignVerification := by
  unfold SignedRequestHeader.sign
  rw [h]

/-- Components of a successful signed-request-header verification. -/
theorem SRH_verify_ok_parts {bypass : Bool} {sh : SignedRequestHeader}
    (h : sh.verify bypass = .ok ()) :
    sh.hashInput = sh.headerHash ∧
    checkSig bypass sh.signee sh.signature sh.headerHash = .ok () := by
  unfold SignedRequestHeader.verify at h
  rw [seqE_ok_iff] at h
  exact ⟨verifyHashB_ok_iff.mp h.1, h.2⟩

/-- Components of a successful signed-response-header verification. -/
theorem SResH_verify_ok_parts {bypass : Bool} {sh : SignedResponseHeader}
    (h : sh.verify bypass = .ok ()) :
    sh.responseHeader.request.verify bypass = .ok () ∧
    sh.hashInput = sh.headerHash ∧
    checkSig bypass sh.signee sh.signature sh.headerHash = .ok () := by
  unfold SignedResponseHeader.verify at h
  rw [seqE_ok_iff] at h
  rw [seqE_ok_iff] at h
  exact ⟨h.1, verifyHashB_ok_iff.mp h.2.1, h.2.2⟩

/-- Components of a successful signed-ack-header verification. -/
theorem SAH_verify_ok_parts {bypass : Bool} {sh : SignedAckHeader}
    (h : sh.verify bypass = .ok ()) :
    sh.ackHeader.response.verify bypass = .ok () ∧
    sh.hashInput = sh.headerHash ∧
    checkSig bypass sh.signee sh.signature sh.headerHash = .ok () := by
  unfold SignedAckHeader.verify at h
  rw [seqE_ok_iff] at h
  rw [seqE_ok_iff] at h
  exact ⟨h.1, verifyHashB_ok_iff.mp h.2.1, h.2.2⟩

/-- Components of a successful signed-no-ack-report-header verification. -/
theorem SNARH_verify_ok_parts {bypass : Bool} {sh : SignedNoAckReportHeader}
    (h : sh.verify bypass = .ok ()) :
    sh.noAckReportHeader.response.verify bypass = .ok () ∧
    sh.hashInput = sh.headerHash ∧
    checkSig bypass sh.signee sh.signature sh.headerHash = .ok () := by
  unfold SignedNoAckReportHeader.verify at h
  rw [seqE_ok_iff] at h
  rw [seqE_ok_iff] at h
  exact ⟨h.1, verifyHashB_ok_iff.mp h.2.1, h.2.2⟩

/-- Components of a successful signed-aggregate-header verification. -/
theorem SAggrH_verify_ok_parts {bypass : Bool} {sh : SignedAggrNoAckReportHeader}
    (h : sh.verify bypass = .ok ()) :
    verifyReports bypass sh.aggrNoAckReportHeader.reports = .ok () ∧
    sh.hashInput = sh.headerHash ∧
    checkSig bypass sh.signee sh.signature sh.headerHash = .ok () := by
  unfold SignedAggrNoAckReportHeader.verify at h
  rw [seqE_ok_iff] at h
  rw [seqE_ok_iff] at h
  exact ⟨h.1, verifyHashB_ok_iff.mp h.2.1, h.2.2⟩

/-- The recursive report verification succeeds iff every embedded report
verifies. -/
theorem verifyReports_ok_iff {bypass : Bool} {l : List SignedNoAckReportHeader} :
    verifyReports bypass l = .ok () ↔ ∀ r ∈ l, r.verify bypass = .ok () := by
  induction l with
  | nil => simp [verifyReports]
  | cons r rs ih => simp [verifyReports, seqE_ok_iff, ih]

/-- The query-kind encoding is injective. -/
theorem encQueryType_inj {a b : QueryType} (h : encQueryType a = encQueryType b) :
    a = b := by
  cases a <;> cases b <;> simp_all [encQueryType]

/-- Changing only the timestamp changes the request-header encoding
accordingly: equal encodings force equal timestamps. -/
theorem encRequestHeader_timestamp_inj {rh : RequestHeader} {t : Nat}
    (h : encRequestHeader { rh with timestamp := t } = encRequestHeader rh) :
    t = rh.timestamp := by
  simp only [encRequestHeader, encNat, encBytes, List.append_assoc] at h
  have h := List.append_cancel_left h
  have h := List.append_cancel_left h
  have h := List.append_cancel_left h
  have h := List.append_cancel_left h
  have h := List.append_cancel_left h
  have h := List.append_cancel_right h
  injection h with h1 h2

/-- Equal request-header encodings force equal batch counts when only the
batch count was changed. -/
theorem encRequestHeader_batchCount_inj {rh : RequestHeader} {n : Nat}
    (h : encRequestHeader { rh with batchCount := n } = encRequestHeader rh) :
    n = rh.batchCount := by
  simp only [encRequestHeader, encNat, encBytes, List.append_assoc] at h
  have h := List.append_cancel_left h
  have h := List.append_cancel_left h
  have h := List.append_cancel_left h
  have h := List.append_cancel_left h
  have h := List.append_cancel_left h
  have h := List.append_cancel_left h
  have h := List.append_cancel_right h
  injection h with h1 h2

/-- Equal request-header encodings force equal query kinds when only the
query kind was changed. -/
theorem encRequestHeader_queryType_inj {rh : RequestHeader} {qt : QueryType}
    (h : encRequestHeader { rh with queryType := qt } = encRequestHeader rh) :
    qt = rh.queryType := by
  simp only [encRequestHeader, encNat, encBytes, List.append_assoc] at h
  exact encQueryType_inj (List.append_cancel_right h)

/-- Equal response-header encodings force equal row counts when only the row
count was changed. -/
theorem encResponseHeader_rowCount_inj {rh : ResponseHeader} {n : Nat}
    (h : encResponseHeader { rh with rowCount := n } = encResponseHeader rh) :
    n = rh.rowCount := by
  simp only [encResponseHeader, encNat, encBytes, List.append_assoc] at h
  have h := List.append_cancel_left h
  have h := List.append_cancel_left h
  have h := List.append_cancel_left h
  have h := List.append_cancel_right h
  injection h with h1 h2

/-- Equal ack-header encodings force equal timestamps when only the
timestamp was changed. -/
theorem encAckHeader_timestamp_inj {h0 : AckHeader} {t : Nat}
    (h : encAckHeader { h0 with timestamp := t } = encAckHeader h0) :
    t = h0.timestamp := by
  simp only [encAckHeader, encNat, encBytes, List.append_assoc] at h
  have h := List.append_cancel_left h
  have h := List.append_cancel_left h
  injection h with h1 h2

/-- Equal no-ack-report-header encodings force equal timestamps when only
the timestamp was changed. -/
theorem encNoAckReportHeader_timestamp_inj {h0 : NoAckReportHeader} {t : Nat}
    (h : encNoAckReportHeader { h0 with timestamp := t } = encNoAckReportHeader h0) :
    t = h0.timestamp := by
  simp only [encNoAckReportHeader, encNat, encBytes, List.append_assoc] at h
  have h := List.append_cancel_left h
  have h := List.append_cancel_right h
  injection h with h1 h2

/-- Mutating the timestamp of a signed request header changes its digest
domain. -/
theorem SRH_hashInput_timestamp_ne {sh : SignedRequestHeader} {t : Nat}
    (hne : t ≠ sh.requestHeader.timestamp) :
    (setSRHTimestamp sh t).hashInput ≠ sh.hashInput := by
  intro h
  simp only [SignedRequestHeader.hashInput, setSRHTimestamp] at h
  exact hne (encRequestHeader_timestamp_inj (List.append_cancel_right h))

/-- Mutating the query kind of a signed request header changes its digest
domain. -/
theorem SRH_hashInput_queryType_ne {sh : SignedRequestHeader} {qt : QueryType}
    (hne : qt ≠ sh.requestHeader.queryType) :
    (setSRHQueryType sh qt).hashInput ≠ sh.hashInput := by
  intro h
  simp only [SignedRequestHeader.hashInput, setSRHQueryType] at h
  exact hne (encRequestHeader_queryType_inj (List.append_cancel_right h))

/-- Mutating the batch count of a signed request header changes its digest
domain. -/
theorem SRH_hashInput_batchCount_ne {sh : SignedRequestHeader} {n : Nat}
    (hne : n ≠ sh.requestHeader.batchCount) :
    (setSRHBatchCount sh n).hashInput ≠ sh.hashInput := by
  intro h
  simp only [SignedRequestHeader.hashInput, setSRHBatchCount] at h
  exact hne (encRequestHeader_batchCount_inj (List.append_cancel_right h))

/-- Mutating the row count of a signed response header changes its digest
domain. -/
theorem SResH_hashInput_rowCount_ne {sh : SignedResponseHeader} {n : Nat}
    (hne : n ≠ sh.responseHeader.rowCount) :
    (setSResHRowCount sh n).hashInput ≠ sh.hashInput := by
  intro h
  simp only [SignedResponseHeader.hashInput, setSResHRowCount] at h
  exact hne (encResponseHeader_rowCount_inj (List.append_cancel_right h))

/-- Mutating the timestamp of a signed ack header changes its digest
domain. -/
theorem SAH_hashInput_timestamp_ne {sh : SignedAckHeader} {t : Nat}
    (hne : t ≠ sh.ackHeader.timestamp) :
    SignedAckHeader.hashInput ⟨{ sh.ackHeader with timestamp := t },
      sh.headerHash, sh.signee, sh.signature⟩ ≠ sh.hashInput := by
  intro h
  simp only [SignedAckHeader.hashInput] at h
  exact hne (encAckHeader_timestamp_inj (List.append_cancel_right h))

/-- Mutating the timestamp of a signed no-ack report header changes its
digest domain. -/
theorem SNARH_hashInput_timestamp_ne {sh : SignedNoAckReportHeader} {t : Nat}
    (hne : t ≠ sh.noAckReportHeader.timestamp) :
    (setSNARHTimestamp sh t).hashInput ≠ sh.hashInput := by
  intro h
  simp only [SignedNoAckReportHeader.hashInput, setSNARHTimestamp] at h
  exact hne (encNoAckReportHeader_timestamp_inj (List.append_cancel_right h))

/-- Mutating the timestamp of a correctly verifying signed request header
makes verification fail with exactly the digest-verification error. -/
theorem SRH_verify_timestamp_mut {bypass : Bool} {sh : SignedRequestHeader} {t : Nat}
    (hok : sh.verify bypass = .ok ()) (hne : t ≠ sh.requestHeader.timestamp) :
    (setSRHTimestamp sh t).verify bypass = .error .ErrHashVerification := by
  obtain ⟨hhash, -⟩ := SRH_verify_ok_parts hok
  unfold SignedRequestHeader.verify
  have hh : (setSRHTimestamp sh t).headerHash = sh.headerHash := rfl
  have hmut : (setSRHTimestamp sh t).hashInput ≠ sh.headerHash := by
    rw [← hhash]
    exact SRH_hashInput_timestamp_ne hne
  rw [hh, verifyHashB_error_of_ne hmut]
  rfl

/-- Mutating the query kind of a correctly verifying signed request header
makes verification fail with exactly the digest-verification error. -/
theorem SRH_verify_queryType_mut {bypass : Bool} {sh : SignedRequestHeader}
    {qt : QueryType} (hok : sh.verify bypass = .ok ())
    (hne : qt ≠ sh.requestHeader.queryType) :
    (setSRHQueryType sh qt).verify bypass = .error .ErrHashVerification := by
  obtain ⟨hhash, -⟩ := SRH_verify_ok_parts hok
  unfold SignedRequestHeader.verify
  have hh : (setSRHQueryType sh qt).headerHash = sh.headerHash := rfl
  have hmut : (setSRHQueryType sh qt).hashInput ≠ sh.headerHash := by
    rw [← hhash]
    exact SRH_hashInput_queryType_ne hne
  rw [hh, verifyHashB_error_of_ne hmut]
  rfl

/-- Mutating the batch count of a correctly verifying signed request header
makes verification fail with exactly the digest-verification error. -/
theorem SRH_verify_batchCount_mut {bypass : Bool} {sh : SignedRequestHeader}
    {n : Nat} (hok : sh.verify bypass = .ok ())
    (hne : n ≠ sh.requestHeader.batchCount) :
    (setSRHBatchCount sh n).verify bypass = .error .ErrHashVerification := by
  obtain ⟨hhash, -⟩ := SRH_verify_ok_parts hok
  unfold SignedRequestHeader.verify
  have hh : (setSRHBatchCount sh n).headerHash = sh.headerHash := rfl
  have hmut : (setSRHBatchCount sh n).hashInput ≠ sh.headerHash := by
    rw [← hhash]
    exact SRH_hashInput_batchCount_ne hne
  rw [hh, verifyHashB_error_of_ne hmut]
  rfl

/-- A failure of the embedded request propagates unchanged through
signed-response-header verification (fail-fast). -/
theorem SResH_verify_embed_error {bypass : Bool} {sh : SignedResponseHeader}
    {req : SignedRequestHeader} {e : SigErr}
    (h : req.verify bypass = .error e) :
    (setSResHRequest sh req).verify bypass = .error e := by
  simp only [SignedResponseHeader.verify, setSResHRequest]
  rw [h]
  rfl

/-- Mutating the row count of a correctly verifying signed response header
makes verification fail with exactly the digest-verification error. -/
theorem SResH_verify_rowCount_mut {bypass : Bool} {sh : SignedResponseHeader}
    {n : Nat} (hok : sh.verify bypass = .ok ())
    (hne : n ≠ sh.responseHeader.rowCount) :
    (setSResHRowCount sh n).verify bypass = .error .ErrHashVerification := by
  obtain ⟨hreq, hhash, -⟩ := SResH_verify_ok_parts hok
  simp only [SignedResponseHeader.verify, setSResHRowCount]
  rw [hreq, seqE_ok_left]
  have hmut : SignedResponseHeader.hashInput
      { sh with responseHeader := { sh.responseHeader with rowCount := n } } ≠
      sh.headerHash := by
    rw [← hhash]
    exact SResH_hashInput_rowCount_ne hne
  rw [verifyHashB_error_of_ne hmut]
  rfl

/-- A failure of the embedded response propagates unchanged through ack
verification (fail-fast). -/
theorem Ack_verify_resp_error {bypass : Bool} {a : Ack}
    {resp : SignedResponseHeader} {e : SigErr}
    (h : resp.verify bypass = .error e) :
    (a.setResponse resp).verify bypass = .error e := by
  simp only [Ack.verify, Ack.setResponse, SignedAckHeader.verify]
  rw [h]
  rfl

/-- Mutating the ack's own timestamp after signing makes verification fail
with exactly the digest-verification error. -/
theorem Ack_verify_timestamp_mut {bypass : Bool} {a : Ack} {t : Nat}
    (hok : a.verify bypass = .ok ()) (hne : t ≠ a.header.ackHeader.timestamp) :
    (a.setTimestamp t).verify bypass = .error .ErrHashVerification := by
  obtain ⟨hresp, hhash, -⟩ := SAH_verify_ok_parts hok
  simp only [Ack.verify, Ack.setTimestamp, SignedAckHeader.verify]
  rw [hresp, seqE_ok_left]
  have hmut := (@SAH_hashInput_timestamp_ne a.header t hne).trans_eq hhash
  rw [verifyHashB_error_of_ne hmut]
  rfl

/-- A failure of the embedded response propagates unchanged through
signed-no-ack-report-header verification (fail-fast). -/
theorem SNARH_verify_resp_error {bypass : Bool} {sh : SignedNoAckReportHeader}
    {resp : SignedResponseHeader} {e : SigErr}
    (h : resp.verify bypass = .error e) :
    SignedNoAckReportHeader.verify bypass
      { sh with noAckReportHeader :=
          { sh.noAckReportHeader with response := resp } } = .error e := by
  simp only [SignedNoAckReportHeader.verify]
  rw [h]
  rfl

/-- Mutating the timestamp of a correctly verifying signed no-ack report
header makes verification fail with exactly the digest-verification
error. -/
theorem SNARH_verify_timestamp_mut {bypass : Bool}
    {sh : SignedNoAckReportHeader} {t : Nat}
    (hok : sh.verify bypass = .ok ()) (hne : t ≠ sh.noAckReportHeader.timestamp) :
    (setSNARHTimestamp sh t).verify bypass = .error .ErrHashVerification := by
  obtain ⟨hresp, hhash, -⟩ := SNARH_verify_ok_parts hok
  simp only [SignedNoAckReportHeader.verify, setSNARHTimestamp]
  rw [hresp, seqE_ok_left]
  have hmut : (setSNARHTimestamp sh t).hashInput ≠ sh.headerHash := by
    rw [← hhash]
    exact SNARH_hashInput_timestamp_ne hne
  simp only [setSNARHTimestamp] at hmut
  rw [verifyHashB_error_of_ne hmut]
  rfl

/-- A failing report in the list makes the recursive report verification
fail with the same error when it is the first report. -/
theorem verifyReports_cons_error {bypass : Bool} {r : SignedNoAckReportHeader}
    {rs : List SignedNoAckReportHeader} {e : SigErr}
    (h : r.verify bypass = .error e) :
    verifyReports bypass (r :: rs) = .error e := by
  simp only [verifyReports]
  rw [h]
  rfl

/-- A failing report list makes aggregate verification fail with the same
error (fail-fast). -/
theorem Aggr_verify_reports_error {bypass : Bool} {g : AggrNoAckReport}
    {rs : List SignedNoAckReportHeader} {e : SigErr}
    (h : verifyReports bypass rs = .error e) :
    (g.withReports rs).verify bypass = .error e := by
  simp only [AggrNoAckReport.verify, AggrNoAckReport.withReports,
    SignedAggrNoAckReportHeader.verify]
  rw [h]
  rfl

/-- Every worker-types error is one of the two failure kinds. -/
theorem SigErr_cases (e : SigErr) :
    e = .ErrHashVerification ∨ e = .ErrSignVerification := by
  cases e
  · exact Or.inl rfl
  · exact Or.inr rfl

/-- The optional-key encoding is injective. -/
theorem encOptNat_inj {a b : Option Nat} (h : encOpt encNat a = encOpt encNat b) :
    a = b := by
  cases a <;> cases b <;> simp_all [encOpt, encNat]

/-- Signing then verifying a signed request header succeeds when the signee
is the public key of the signing key. -/
theorem SRH_sign_verify (bypass : Bool) (priv : Nat) (sh : SignedRequestHeader)
    (hs : sh.signee = some (pubOf priv)) :
    SignedRequestHeader.verify bypass
      { sh with headerHash := sh.hashInput,
                signature := some ⟨priv, sh.hashInput⟩ } = .ok () := by
  show seqE (verifyHashB sh.hashInput sh.hashInput)
    (checkSig bypass sh.signee (some ⟨priv, sh.hashInput⟩) sh.hashInput) = .ok ()
  rw [hs, verifyHashB_ok_iff.mpr rfl, seqE_ok_left]
  exact checkSig_ok_of bypass priv sh.hashInput

/-- Inversion of a successful signed-request-header sign call. -/
theorem SRH_sign_ok_inv {priv : Nat} {sh sh1 : SignedRequestHeader}
    (h : sh.sign priv = .ok sh1) :
    sh1 = { sh with headerHash := sh.hashInput,
                    signature := some ⟨priv, sh.hashInput⟩ } := by
  unfold SignedRequestHeader.sign at h
  cases hs : sh.signee with
  | none => rw [hs] at h; exact absurd h (by simp)
  | some pk =>
    rw [hs] at h
    injection h with h1
    exact h1.symm

/-- Reduction of a signed-ack-header sign call when the signee is set and
the embedded response verifies. -/
theorem SAH_sign_eq (bypass : Bool) (priv : Nat) (sh : SignedAckHeader)
    (pk : Nat) (hs : sh.signee = some pk)
    (hresp : sh.ackHeader.response.verify bypass = .ok ()) :
    SignedAckHeader.sign bypass priv sh =
      .ok { sh with headerHash := sh.hashInput,
                    signature := some ⟨priv, sh.hashInput⟩ } := by
  unfold SignedAckHeader.sign
  rw [hs, hresp]
  rfl

/-- Signing then verifying a signed ack header succeeds when the signee is
the public key of the signing key and the embedded response verifies. -/
theorem SAH_sign_verify (bypass : Bool) (priv : Nat) (sh : SignedAckHeader)
    (hs : sh.signee = some (pubOf priv))
    (hresp : sh.ackHeader.response.verify bypass = .ok ()) :
    SignedAckHeader.verify bypass
      { sh with headerHash := sh.hashInput,
                signature := some ⟨priv, sh.hashInput⟩ } = .ok () := by
  unfold SignedAckHeader.verify
  dsimp only [SignedAckHeader.hashInput]
  rw [hresp, seqE_ok_left, hs, verifyHashB_ok_iff.mpr rfl, seqE_ok_left]
  exact checkSig_ok_of bypass priv _

/-- Inversion of a successful signed-response-header sign call. -/
theorem SResH_sign_ok_inv {bypass : Bool} {priv : Nat}
    {sh sh1 : SignedResponseHeader} (h : sh.sign bypass priv = .ok sh1) :
    sh1 = { sh with headerHash := sh.hashInput,
                    signature := some ⟨priv, sh.hashInput⟩ } := by
  unfold SignedResponseHeader.sign at h
  cases hs : sh.signee with
  | none => rw [hs] at h; exact absurd h (by simp)
  | some pk =>
    rw [hs] at h
    cases hv : sh.responseHeader.request.verify bypass with
    | error e => rw [hv] at h; exact absurd h (by simp)
    | ok u =>
      cases u
      rw [hv] at h
      injection h with h1
      exact h1.symm

/-- Mapping over a successful computation: inversion. -/
theorem exceptMap_ok_inv {α β : Type} {f : α → β} {e : Except SigErr α} {v : β}
    (h : e.map f = .ok v) : ∃ u, e = .ok u ∧ v = f u := by
  cases e <;> simp_all [Except.map]

/-- Mapping over a failed computation: inversion. -/
theorem exceptMap_error_inv {α β : Type} {f : α → β} {e : Except SigErr α}
    {e2 : SigErr} (h : e.map f = .error e2) : e = .error e2 := by
  cases e <;> simp_all [Except.map]

/-- Mapping a function over a failed computation keeps the error. -/
theorem exceptMap_error {α β : Type} {f : α → β} {e : Except SigErr α}
    {er : SigErr} (h : e = .error er) : e.map f = .error er := by
  rw [h]
  rfl

/-- Facts established by a successful request sign call: the payload is kept,
batch count and queries digest are set from the payload, and the stored
header digest equals the digest of the final header's digest domain. -/
theorem Request_sign_ok_facts {priv : Nat} {r r1 : Request}
    (h : Request.sign priv r = .ok r1) :
    r1.payload = r.payload ∧
    r1.header.requestHeader.batchCount = r.payload.queries.length ∧
    r1.header.requestHeader.queriesHash = thash (encRequestPayload r.payload) ∧
    r1.header.headerHash = r1.header.hashInput := by
  unfold Request.sign at h
  obtain ⟨sh, hsg, hval⟩ := exceptMap_ok_inv h
  have h2 := SRH_sign_ok_inv hsg
  subst hval
  subst h2
  exact ⟨rfl, rfl, rfl, rfl⟩

/-- A sign call on a signed response header whose embedded request does not
verify fails. -/
theorem SResH_sign_embed_error {bypass : Bool} {priv : Nat}
    {sh : SignedResponseHeader} {e : SigErr}
    (h : sh.responseHeader.request.verify bypass = .error e) :
    ∃ e2, SignedResponseHeader.sign bypass priv sh = .error e2 := by
  unfold SignedResponseHeader.sign
  cases hs : sh.signee with
  | none => exact ⟨_, rfl⟩
  | some pk =>
    rw [h]
    exact ⟨e, rfl⟩

/-- A sign call on a signed ack header whose embedded response does not
verify fails. -/
theorem SAH_sign_embed_error {bypass : Bool} {priv : Nat}
    {sh : SignedAckHeader} {e : SigErr}
    (h : sh.ackHeader.response.verify bypass = .error e) :
    ∃ e2, SignedAckHeader.sign bypass priv sh = .error e2 := by
  unfold SignedAckHeader.sign
  cases hs : sh.signee with
  | none => exact ⟨_, rfl⟩
  | some pk =>
    rw [h]
    exact ⟨e, rfl⟩

/-- A sign call on a signed no-ack report header whose embedded response
does not verify fails. -/
theorem SNARH_sign_embed_error {bypass : Bool} {priv : Nat}
    {sh : SignedNoAckReportHeader} {e : SigErr}
    (h : sh.noAckReportHeader.response.verify bypass = .error e) :
    ∃ e2, SignedNoAckReportHeader.sign bypass priv sh = .error e2 := by
  unfold SignedNoAckReportHeader.sign
  cases hs : sh.signee with
  | none => exact ⟨_, rfl⟩
  | some pk =>
    rw [h]
    exact ⟨e, rfl⟩

/-- A sign call on a signed aggregate header one of whose embedded reports
does not verify fails. -/
theorem SAggrH_sign_embed_error {bypass : Bool} {priv : Nat}
    {sh : SignedAggrNoAckReportHeader} {rep : SignedNoAckReportHeader}
    {e : SigErr} (hmem : rep ∈ sh.aggrNoAckReportHeader.reports)
    (hrep : rep.verify bypass = .error e) :
    ∃ e2, SignedAggrNoAckReportHeader.sign bypass priv sh = .error e2 := by
  unfold SignedAggrNoAckReportHeader.sign
  cases hs : sh.signee with
  | none => exact ⟨_, rfl⟩
  | some pk =>
    cases hv : verifyReports bypass sh.aggrNoAckReportHeader.reports with
    | error e2 => exact ⟨e2, rfl⟩
    | ok u =>
      cases u
      have hok := verifyReports_ok_iff.mp hv rep hmem
      rw [hrep] at hok
      exact absurd hok (by simp)

/-- A sign call on a response whose embedded request does not verify fails. -/
theorem Response_sign_embed_error {bypass : Bool} {priv : Nat} {r : Response}
    {e : SigErr} (h : r.header.responseHeader.request.verify bypass = .error e) :
    ∃ e2, Response.sign bypass priv r = .error e2 := by
  obtain ⟨e2, h2⟩ := @SResH_sign_embed_error bypass priv
    { r.header with responseHeader := { r.header.responseHeader with
        dataHash := thash (encResponsePayload r.payload) } } e h
  exact ⟨e2, exceptMap_error h2⟩

/-- A sign call on an ack whose embedded response does not verify fails. -/
theorem Ack_sign_embed_error {bypass : Bool} {priv : Nat} {a : Ack}
    {e : SigErr} (h : a.header.ackHeader.response.verify bypass = .error e) :
    ∃ e2, Ack.sign bypass priv a = .error e2 := by
  obtain ⟨e2, h2⟩ := @SAH_sign_embed_error bypass priv a.header e h
  exact ⟨e2, exceptMap_error h2⟩

/-- A sign call on a no-ack report whose embedded response does not verify
fails. -/
theorem NoAckReport_sign_embed_error {bypass : Bool} {priv : Nat}
    {r : NoAckReport} {e : SigErr}
    (h : r.header.noAckReportHeader.response.verify bypass = .error e) :
    ∃ e2, NoAckReport.sign bypass priv r = .error e2 := by
  obtain ⟨e2, h2⟩ := @SNARH_sign_embed_error bypass priv r.header e h
  exact ⟨e2, exceptMap_error h2⟩

/-- A sign call on an aggregated report one of whose embedded reports does
not verify fails. -/
theorem Aggr_sign_embed_error {bypass : Bool} {priv : Nat}
    {g : AggrNoAckReport} {rep : SignedNoAckReportHeader} {e : SigErr}
    (hmem : rep ∈ g.header.aggrNoAckReportHeader.reports)
    (hrep : rep.verify bypass = .error e) :
    ∃ e2, AggrNoAckReport.sign bypass priv g = .error e2 := by
  obtain ⟨e2, h2⟩ := @SAggrH_sign_embed_error bypass priv g.header rep e hmem hrep
  exact ⟨e2, exceptMap_error h2⟩

/-- Reduction of a signed-aggregate-header sign call when the signee is set
and every embedded report verifies. -/
theorem SAggrH_sign_eq (bypass : Bool) (priv : Nat)
    (sh : SignedAggrNoAckReportHeader) (pk : Nat) (hs : sh.signee = some pk)
    (hreps : verifyReports bypass sh.aggrNoAckReportHeader.reports = .ok ()) :
    SignedAggrNoAckReportHeader.sign bypass priv sh =
      .ok { sh with headerHash := sh.hashInput,
                    signature := some ⟨priv, sh.hashInput⟩ } := by
  unfold SignedAggrNoAckReportHeader.sign
  rw [hs, hreps]
  rfl

/-- Signing then verifying a signed aggregate header succeeds when the
signee is the public key of the signing key and every embedded report
verifies. -/
theorem SAggrH_sign_verify (bypass : Bool) (priv : Nat)
    (sh : SignedAggrNoAckReportHeader)
    (hs : sh.signee = some (pubOf priv))
    (hreps : verifyReports bypass sh.aggrNoAckReportHeader.reports = .ok ()) :
    SignedAggrNoAckReportHeader.verify bypass
      { sh with headerHash := sh.hashInput,
                signature := some ⟨priv, sh.hashInput⟩ } = .ok () := by
  unfold SignedAggrNoAckReportHeader.verify
  dsimp only [SignedAggrNoAckReportHeader.hashInput]
  rw [hreps, seqE_ok_left, hs, verifyHashB_ok_iff.mpr rfl, seqE_ok_left]
  exact checkSig_ok_of bypass priv _

/-- Appending a query changes the canonical payload encoding (the leading
element count differs). -/
theorem encRequestPayload_append_ne (p : RequestPayload) (q : Query) :
    encRequestPayload ⟨p.queries ++ [q]⟩ ≠ encRequestPayload p := by
  intro h
  simp only [encRequestPayload, encList] at h
  injection h with h1 h2
  simp only [List.length_append, List.length_cons, List.length_nil] at h1
  omega

/-- A populated optional encoding never equals the nil sentinel byte. -/
theorem encOpt_some_ne_sentinel (f : α → Bytes) (x : α) :
    encOpt f (some x) ≠ [0] := by
  simp [encOpt]

/-- A populated optional encoding is never empty. -/
theorem encOpt_some_ne_nil (f : α → Bytes) (x : α) : encOpt f (some x) ≠ [] := by
  simp [encOpt]

/-- C1: for every header whose signee field is set to the public key
corresponding to the private key used, and whose embedded sub-structures (if
any) are already validly signed, sign succeeds and a subsequent verify on the
unmodified result succeeds.  Stated for the payload-free signed request
header and, with full nesting, for the ack wrapper, under either value of
the bypass flag. -/
theorem claim_C1_sign_then_verify_ok :
    (∀ (bypass : Bool) (priv : Nat) (sh : SignedRequestHeader),
      sh.signee = some (pubOf priv) →
      ∃ sh1, sh.sign priv = .ok sh1 ∧ sh1.verify bypass = .ok ()) ∧
    (∀ (bypass : Bool) (priv : Nat) (a : Ack),
      a.header.signee = some (pubOf priv) →
      a.header.ackHeader.response.verify bypass = .ok () →
      ∃ a1, Ack.sign bypass priv a = .ok a1 ∧ a1.verify bypass = .ok ()) := by
  constructor
  · intro bypass priv sh hs
    exact ⟨_, SRH_sign_eq priv sh _ hs, SRH_sign_verify bypass priv sh hs⟩
  · intro bypass priv a hs hresp
    refine ⟨Ack.mk { a.header with
        headerHash := a.header.hashInput,
        signature := some ⟨priv, a.header.hashInput⟩ }, ?_, ?_⟩
    · unfold Ack.sign
      rw [SAH_sign_eq bypass priv a.header _ hs hresp]
      rfl
    · exact SAH_sign_verify bypass priv a.header hs hresp

/-- Witness for C1 at the concrete test-shaped values. -/
theorem claim_C1_witness :
    signedRequestHeader0.signee = some (pubOf privKey0) ∧
    (∃ sh1, signedRequestHeader0.sign privKey0 = .ok sh1 ∧
      sh1.verify false = .ok ()) ∧
    ack0.header.signee = some (pubOf privKey0) ∧
    ack0.header.ackHeader.response.verify false = .ok () ∧
    (∃ a1, Ack.sign false privKey0 ack0 = .ok a1 ∧ a1.verify false = .ok ()) := by
  refine ⟨rfl, ?_, rfl, ?_, ?_⟩
  · exact claim_C1_sign_then_verify_ok.1 false privKey0 signedRequestHeader0 rfl
  · rfl
  · exact claim_C1_sign_then_verify_ok.2 false privKey0 ack0 rfl (by rfl)

/-- C2: for every successfully signed (hence correctly verifying) header and
every mutation of a business field of the header or of a structure it embeds
— its own timestamp, the embedded request's QueryType or BatchCount, the
embedded response's RowCount — verification after the mutation fails, and
the error is specifically the digest-verification failure, not the
signature-verification failure.  Stated for the signed request header (own
timestamp) and for the fully nested ack (all four mutation sites of its
sources), for any replacement value different from the signed one and either
value of the bypass flag. -/
theorem claim_C2_mutation_digest_error :
    (∀ (bypass : Bool) (sh : SignedRequestHeader) (t : Nat),
      sh.verify bypass = .ok () → t ≠ sh.requestHeader.timestamp →
      (setSRHTimestamp sh t).verify bypass = .error .ErrHashVerification) ∧
    (∀ (bypass : Bool) (a : Ack) (qt : QueryType),
      a.verify bypass = .ok () →
      qt ≠ a.header.ackHeader.response.responseHeader.request.requestHeader.queryType →
      (a.setRequestQueryType qt).verify bypass = .error .ErrHashVerification) ∧
    (∀ (bypass : Bool) (a : Ack) (n : Nat),
      a.verify bypass = .ok () →
      n ≠ a.header.ackHeader.response.responseHeader.request.requestHeader.batchCount →
      (a.setRequestBatchCount n).verify bypass = .error .ErrHashVerification) ∧
    (∀ (bypass : Bool) (a : Ack) (n : Nat),
      a.verify bypass = .ok () →
      n ≠ a.header.ackHeader.response.responseHeader.rowCount →
      (a.setResponseRowCount n).verify bypass = .error .ErrHashVerification) ∧
    (∀ (bypass : Bool) (a : Ack) (t : Nat),
      a.verify bypass = .ok () → t ≠ a.header.ackHeader.timestamp →
      (a.setTimestamp t).verify bypass = .error .ErrHashVerification) := by
  refine ⟨?_, ?_, ?_, ?_, ?_⟩
  · exact fun bypass sh t hok hne => SRH_verify_timestamp_mut hok hne
  · intro bypass a qt hok hne
    obtain ⟨hresp, -, -⟩ := SAH_verify_ok_parts hok
    obtain ⟨hreq, -, -⟩ := SResH_verify_ok_parts hresp
    exact Ack_verify_resp_error
      (SResH_verify_embed_error (SRH_verify_queryType_mut hreq hne))
  · intro bypass a n hok hne
    obtain ⟨hresp, -, -⟩ := SAH_verify_ok_parts hok
    obtain ⟨hreq, -, -⟩ := SResH_verify_ok_parts hresp
    exact Ack_verify_resp_error
      (SResH_verify_embed_error (SRH_verify_batchCount_mut hreq hne))
  · intro bypass a n hok hne
    obtain ⟨hresp, -, -⟩ := SAH_verify_ok_parts hok
    exact Ack_verify_resp_error (SResH_verify_rowCount_mut hresp hne)
  · exact fun bypass a t hok hne => Ack_verify_timestamp_mut hok hne

/-- Witness for C2 at the concrete signed test-shaped values. -/
theorem claim_C2_witness :
    signedRequestHeader1.verify false = .ok () ∧
    (setSRHTimestamp signedRequestHeader1 99).verify false =
      .error .ErrHashVerification ∧
    ack1.verify false = .ok () ∧
    (ack1.setRequestQueryType .ReadQuery).verify false =
      .error .ErrHashVerification ∧
    (ack1.setRequestBatchCount 200).verify false =
      .error .ErrHashVerification ∧
    (ack1.setResponseRowCount 100).verify false =
      .error .ErrHashVerification ∧
    (ack1.setTimestamp 99).verify false = .error .ErrHashVerification := by
  refine ⟨rfl, ?_, rfl, ?_, ?_, ?_, ?_⟩
  · exact claim_C2_mutation_digest_error.1 false signedRequestHeader1 99
      (by rfl) (by decide)
  · exact claim_C2_mutation_digest_error.2.1 false ack1 .ReadQuery
      (by rfl) (by decide)
  · exact claim_C2_mutation_digest_error.2.2.1 false ack1 200
      (by rfl) (by decide)
  · exact claim_C2_mutation_digest_error.2.2.2.1 false ack1 100
      (by rfl) (by decide)
  · exact claim_C2_mutation_digest_error.2.2.2.2 false ack1 99
      (by rfl) (by decide)

/-- C3: signing a wrapper (Response, Ack, NoAckReport, AggrNoAckReport)
whose embedded lower-layer signed structure does not verify (unsigned or
tampered) always returns an error, and that error is one of exactly the two
failure kinds; it never succeeds. -/
theorem claim_C3_sign_over_invalid_embed_fails :
    (∀ (bypass : Bool) (priv : Nat) (r : Response) (e : SigErr),
      r.header.responseHeader.request.verify bypass = .error e →
      ∃ e2, Response.sign bypass priv r = .error e2 ∧
        (e2 = .ErrHashVerification ∨ e2 = .ErrSignVerification)) ∧
    (∀ (bypass : Bool) (priv : Nat) (a : Ack) (e : SigErr),
      a.header.ackHeader.response.verify bypass = .error e →
      ∃ e2, Ack.sign bypass priv a = .error e2 ∧
        (e2 = .ErrHashVerification ∨ e2 = .ErrSignVerification)) ∧
    (∀ (bypass : Bool) (priv : Nat) (r : NoAckReport) (e : SigErr),
      r.header.noAckReportHeader.response.verify bypass = .error e →
      ∃ e2, NoAckReport.sign bypass priv r = .error e2 ∧
        (e2 = .ErrHashVerification ∨ e2 = .ErrSignVerification)) ∧
    (∀ (bypass : Bool) (priv : Nat) (g : AggrNoAckReport)
       (rep : SignedNoAckReportHeader) (e : SigErr),
      rep ∈ g.header.aggrNoAckReportHeader.reports →
      rep.verify bypass = .error e →
      ∃ e2, AggrNoAckReport.sign bypass priv g = .error e2 ∧
        (e2 = .ErrHashVerification ∨ e2 = .ErrSignVerification)) := by
  refine ⟨?_, ?_, ?_, ?_⟩
  · intro bypass priv r e h
    obtain ⟨e2, h2⟩ := @Response_sign_embed_error bypass priv r e h
    exact ⟨e2, h2, SigErr_cases e2⟩
  · intro bypass priv a e h
    obtain ⟨e2, h2⟩ := @Ack_sign_embed_error bypass priv a e h
    exact ⟨e2, h2, SigErr_cases e2⟩
  · intro bypass priv r e h
    obtain ⟨e2, h2⟩ := @NoAckReport_sign_embed_error bypass priv r e h
    exact ⟨e2, h2, SigErr_cases e2⟩
  · intro bypass priv g rep e hmem h
    obtain ⟨e2, h2⟩ := @Aggr_sign_embed_error bypass priv g rep e hmem h
    exact ⟨e2, h2, SigErr_cases e2⟩

/-- Witness for C3 at concrete wrappers over unsigned embedded structures. -/
theorem claim_C3_witness :
    responseBad0.header.responseHeader.request.verify false =
      .error .ErrHashVerification ∧
    (∃ e2, Response.sign false privKey0 responseBad0 = .error e2 ∧
      (e2 = .ErrHashVerification ∨ e2 = .ErrSignVerification)) ∧
    (∃ e2, Ack.sign false privKey0 ackBad0 = .error e2 ∧
      (e2 = .ErrHashVerification ∨ e2 = .ErrSignVerification)) ∧
    (∃ e2, NoAckReport.sign false privKey0 noAckBad0 = .error e2 ∧
      (e2 = .ErrHashVerification ∨ e2 = .ErrSignVerification)) ∧
    (∃ e2, AggrNoAckReport.sign false privKey0 aggrBad0 = .error e2 ∧
      (e2 = .ErrHashVerification ∨ e2 = .ErrSignVerification)) := by
  refine ⟨rfl, ?_, ?_, ?_, ?_⟩
  · exact claim_C3_sign_over_invalid_embed_fails.1 false privKey0 responseBad0
      .ErrHashVerification (by rfl)
  · exact claim_C3_sign_over_invalid_embed_fails.2.1 false privKey0 ackBad0
      .ErrHashVerification (by rfl)
  · exact claim_C3_sign_over_invalid_embed_fails.2.2.1 false privKey0 noAckBad0
      .ErrHashVerification (by rfl)
  · exact claim_C3_sign_over_invalid_embed_fails.2.2.2 false privKey0 aggrBad0
      signedNoAckReportHeader0 .ErrHashVerification
      (List.mem_singleton_self signedNoAckReportHeader0) (by rfl)

/-- C4: the stored header digest is computed over a canonical encoding that
includes the declared signer identity (the signee key) together with the
business fields; equivalently, two headers differing only in the signee get
different digests at signing time.  Stated for signed request headers and
signed response headers. -/
theorem claim_C4_digest_binds_signee :
    (∀ (priv : Nat) (sh sh1 : SignedRequestHeader),
      sh.sign priv = .ok sh1 →
      sh1.headerHash = encRequestHeader sh.requestHeader ++ encOpt encNat sh.signee) ∧
    (∀ (p1 p2 : Nat) (sha shb sha1 shb1 : SignedRequestHeader),
      sha.requestHeader = shb.requestHeader → sha.signee ≠ shb.signee →
      sha.sign p1 = .ok sha1 → shb.sign p2 = .ok shb1 →
      sha1.headerHash ≠ shb1.headerHash) ∧
    (∀ (bypass : Bool) (priv : Nat) (sh sh1 : SignedResponseHeader),
      sh.sign bypass priv = .ok sh1 →
      sh1.headerHash = encResponseHeader sh.responseHeader ++ encOpt encNat sh.signee) ∧
    (∀ (bypass : Bool) (p1 p2 : Nat) (sha shb sha1 shb1 : SignedResponseHeader),
      sha.responseHeader = shb.responseHeader → sha.signee ≠ shb.signee →
      sha.sign bypass p1 = .ok sha1 → shb.sign bypass p2 = .ok shb1 →
      sha1.headerHash ≠ shb1.headerHash) := by
  refine ⟨?_, ?_, ?_, ?_⟩
  · intro priv sh sh1 h
    rw [SRH_sign_ok_inv h]
    rfl
  · intro p1 p2 sha shb sha1 shb1 hb hs h1 h2
    rw [SRH_sign_ok_inv h1, SRH_sign_ok_inv h2]
    show sha.hashInput ≠ shb.hashInput
    unfold SignedRequestHeader.hashInput
    rw [hb]
    intro heq
    exact hs (encOptNat_inj (List.append_cancel_left heq))
  · intro bypass priv sh sh1 h
    rw [SResH_sign_ok_inv h]
    rfl
  · intro bypass p1 p2 sha shb sha1 shb1 hb hs h1 h2
    rw [SResH_sign_ok_inv h1, SResH_sign_ok_inv h2]
    show sha.hashInput ≠ shb.hashInput
    unfold SignedResponseHeader.hashInput
    rw [hb]
    intro heq
    exact hs (encOptNat_inj (List.append_cancel_left heq))

/-- Witness for C4: two concrete headers equal except for the signee produce
different digests when signed. -/
theorem claim_C4_witness :
    signedRequestHeader0.sign privKey0 = .ok signedRequestHeader1 ∧
    srhAlt0.sign privKey0 = .ok srhAlt1 ∧
    signedRequestHeader0.requestHeader = srhAlt0.requestHeader ∧
    signedRequestHeader0.signee ≠ srhAlt0.signee ∧
    signedRequestHeader1.headerHash ≠ srhAlt1.headerHash := by
  refine ⟨rfl, rfl, rfl, by decide, ?_⟩
  exact claim_C4_digest_binds_signee.2.1 privKey0 privKey0 signedRequestHeader0
    srhAlt0 signedRequestHeader1 srhAlt1 rfl (by decide) (by rfl) (by rfl)

/-- C5: signing a header whose signee is unset fails with an error, and on
this failure no digest or signature field is populated: in this functional
embedding a failed sign returns only the error, so the caller's header keeps
its pre-call unsigned state.  Stated for the signed request header and the
request wrapper. -/
theorem claim_C5_sign_without_signee_fails :
    (∀ (priv : Nat) (sh : SignedRequestHeader), sh.signee = none →
      sh.sign priv = .error .ErrSignVerification) ∧
    (∀ (priv : Nat) (r : Request), r.header.signee = none →
      Request.sign priv r = .error .ErrSignVerification) := by
  constructor
  · exact fun priv sh hs => SRH_sign_none priv sh hs
  · intro priv r hs
    unfold Request.sign
    have hM : ({ r.header with requestHeader := { r.header.requestHeader with
        batchCount := r.payload.queries.length,
        queriesHash := thash (encRequestPayload r.payload) } } :
        SignedRequestHeader).signee = none := hs
    exact exceptMap_error (SRH_sign_none priv _ hM)

/-- Witness for C5 at a concrete signee-less header and request. -/
theorem claim_C5_witness :
    srhNoSignee0.signee = none ∧
    srhNoSignee0.sign privKey0 = .error .ErrSignVerification ∧
    requestNoSignee0.header.signee = none ∧
    Request.sign privKey0 requestNoSignee0 = .error .ErrSignVerification := by
  refine ⟨rfl, ?_, rfl, ?_⟩
  · exact claim_C5_sign_without_signee_fails.1 privKey0 srhNoSignee0 rfl
  · exact claim_C5_sign_without_signee_fails.2 privKey0 requestNoSignee0 rfl

/-- C6: after a successful sign of a request with N payload queries, the
header's BatchCount equals N and the header's queries digest equals the
freshly computed digest of the payload; appending a query to the payload
after signing makes verify fail via the payload-digest comparison (the
header's own digest check still passes, and the reported error is the
digest-verification failure). -/
theorem claim_C6_payload_binding :
    ∀ (bypass : Bool) (priv : Nat) (r r1 : Request),
      Request.sign priv r = .ok r1 →
      r1.header.requestHeader.batchCount = r.payload.queries.length ∧
      r1.header.requestHeader.queriesHash = thash (encRequestPayload r.payload) ∧
      ∀ q : Query,
        Request.verify bypass (r1.appendQuery q) = .error .ErrHashVerification ∧
        verifyHashB (r1.appendQuery q).header.hashInput
          (r1.appendQuery q).header.headerHash = .ok () := by
  intro bypass priv r r1 h
  obtain ⟨hpay, hbatch, hqh, hhh⟩ := Request_sign_ok_facts h
  refine ⟨hbatch, hqh, fun q => ⟨?_, ?_⟩⟩
  · unfold Request.verify Request.appendQuery
    have hne : encRequestPayload ⟨r1.payload.queries ++ [q]⟩ ≠
        r1.header.requestHeader.queriesHash := by
      rw [hqh, hpay]
      show encRequestPayload ⟨r.payload.queries ++ [q]⟩ ≠ encRequestPayload r.payload
      exact encRequestPayload_append_ne r.payload q
    rw [verifyHashB_error_of_ne hne]
    rfl
  · show verifyHashB r1.header.hashInput r1.header.headerHash = .ok ()
    rw [verifyHashB_ok_iff]
    exact hhh.symm

/-- Witness for C6 at the concrete two-query request. -/
theorem claim_C6_witness :
    Request.sign privKey0 request0 = .ok request1 ∧
    request1.header.requestHeader.batchCount = request0.payload.queries.length ∧
    request1.header.requestHeader.queriesHash =
      thash (encRequestPayload request0.payload) ∧
    Request.verify false
        (request1.appendQuery { pattern := "select 1", args := [] }) =
      .error .ErrHashVerification := by
  have hsig : Request.sign privKey0 request0 = .ok request1 := by rfl
  have hc := claim_C6_payload_binding false privKey0 request0 request1 hsig
  exact ⟨hsig, hc.1, hc.2.1,
    (hc.2.2 { pattern := "select 1", args := [] }).1⟩

/-- C7: verifying an aggregated no-ack report recursively verifies every
embedded signed report header (and, through them, every embedded signed
response and request header): when the signee matches the signing key and
every embedded report verifies, sign succeeds and the result verifies; and
mutating any field of any embedded layer — an embedded request's QueryType,
an embedded response's RowCount, or an embedded report's timestamp — after
aggregation makes the aggregate's verify fail. -/
theorem claim_C7_aggregate_recursive_verify :
    (∀ (bypass : Bool) (priv : Nat) (g : AggrNoAckReport),
      g.header.signee = some (pubOf priv) →
      (∀ rep ∈ g.header.aggrNoAckReportHeader.reports, rep.verify bypass = .ok ()) →
      ∃ g1, AggrNoAckReport.sign bypass priv g = .ok g1 ∧
        g1.verify bypass = .ok ()) ∧
    (∀ (bypass : Bool) (g : AggrNoAckReport) (rep : SignedNoAckReportHeader)
       (rest : List SignedNoAckReportHeader) (t : Nat),
      g.verify bypass = .ok () →
      g.header.aggrNoAckReportHeader.reports = rep :: rest →
      t ≠ rep.noAckReportHeader.timestamp →
      (g.withReports (setSNARHTimestamp rep t :: rest)).verify bypass =
        .error .ErrHashVerification) ∧
    (∀ (bypass : Bool) (g : AggrNoAckReport) (rep : SignedNoAckReportHeader)
       (rest : List SignedNoAckReportHeader) (n : Nat),
      g.verify bypass = .ok () →
      g.header.aggrNoAckReportHeader.reports = rep :: rest →
      n ≠ rep.noAckReportHeader.response.responseHeader.rowCount →
      (g.withReports (setSNARHResponseRowCount rep n :: rest)).verify bypass =
        .error .ErrHashVerification) ∧
    (∀ (bypass : Bool) (g : AggrNoAckReport) (rep : SignedNoAckReportHeader)
       (rest : List SignedNoAckReportHeader) (qt : QueryType),
      g.verify bypass = .ok () →
      g.header.aggrNoAckReportHeader.reports = rep :: rest →
      qt ≠ rep.noAckReportHeader.response.responseHeader.request.requestHeader.queryType →
      (g.withReports (setSNARHRequestQueryType rep qt :: rest)).verify bypass =
        .error .ErrHashVerification) := by
  refine ⟨?_, ?_, ?_, ?_⟩
  · intro bypass priv g hs hreps
    have hv : verifyReports bypass g.header.aggrNoAckReportHeader.reports = .ok () :=
      verifyReports_ok_iff.mpr hreps
    refine ⟨AggrNoAckReport.mk { g.header with
        headerHash := g.header.hashInput,
        signature := some ⟨priv, g.header.hashInput⟩ }, ?_, ?_⟩
    · unfold AggrNoAckReport.sign
      rw [SAggrH_sign_eq bypass priv g.header _ hs hv]
      rfl
    · exact SAggrH_sign_verify bypass priv g.header hs hv
  · intro bypass g rep rest t hok hreps hne
    obtain ⟨hv, -, -⟩ := SAggrH_verify_ok_parts hok
    rw [hreps] at hv
    have hrep : rep.verify bypass = .ok () :=
      verifyReports_ok_iff.mp hv rep (List.mem_cons_self rep rest)
    exact Aggr_verify_reports_error
      (verifyReports_cons_error (SNARH_verify_timestamp_mut hrep hne))
  · intro bypass g rep rest n hok hreps hne
    obtain ⟨hv, -, -⟩ := SAggrH_verify_ok_parts hok
    rw [hreps] at hv
    have hrep : rep.verify bypass = .ok () :=
      verifyReports_ok_iff.mp hv rep (List.mem_cons_self rep rest)
    obtain ⟨hresp, -, -⟩ := SNARH_verify_ok_parts hrep
    exact Aggr_verify_reports_error
      (verifyReports_cons_error
        (SNARH_verify_resp_error (SResH_verify_rowCount_mut hresp hne)))
  · intro bypass g rep rest qt hok hreps hne
    obtain ⟨hv, -, -⟩ := SAggrH_verify_ok_parts hok
    rw [hreps] at hv
    have hrep : rep.verify bypass = .ok () :=
      verifyReports_ok_iff.mp hv rep (List.mem_cons_self rep rest)
    obtain ⟨hresp, -, -⟩ := SNARH_verify_ok_parts hrep
    obtain ⟨hreq, -, -⟩ := SResH_verify_ok_parts hresp
    exact Aggr_verify_reports_error
      (verifyReports_cons_error
        (SNARH_verify_resp_error
          (SResH_verify_embed_error (SRH_verify_queryType_mut hreq hne))))

/-- Witness for C7 at the concrete aggregated report. -/
theorem claim_C7_witness :
    (∃ g1, AggrNoAckReport.sign false privKey0 aggr0 = .ok g1 ∧
      g1.verify false = .ok ()) ∧
    aggr1.verify false = .ok () ∧
    (aggr1.withReports
        (setSNARHTimestamp signedNoAckReportHeader1 99 :: [])).verify false =
      .error .ErrHashVerification ∧
    (aggr1.withReports
        (setSNARHResponseRowCount signedNoAckReportHeader1 1000 :: [])).verify false =
      .error .ErrHashVerification ∧
    (aggr1.withReports
        (setSNARHRequestQueryType signedNoAckReportHeader1 .ReadQuery :: [])).verify false =
      .error .ErrHashVerification := by
  refine ⟨?_, rfl, ?_, ?_, ?_⟩
  · refine claim_C7_aggregate_recursive_verify.1 false privKey0 aggr0 rfl ?_
    intro rep hmem
    rw [List.mem_singleton.mp hmem]
    rfl
  · exact claim_C7_aggregate_recursive_verify.2.1 false aggr1
      signedNoAckReportHeader1 [] 99 (by rfl) (by rfl) (by decide)
  · exact claim_C7_aggregate_recursive_verify.2.2.1 false aggr1
      signedNoAckReportHeader1 [] 1000 (by rfl) (by rfl) (by decide)
  · exact claim_C7_aggregate_recursive_verify.2.2.2 false aggr1
      signedNoAckReportHeader1 [] .ReadQuery (by rfl) (by rfl) (by decide)

/-- C8: for every protocol entity type, serializing a nil/absent value
yields exactly the single sentinel byte 0, which is distinct from the
encoding of any populated value, and serialization is a deterministic
function of the value (repeated serialization yields identical bytes). -/
theorem claim_C8_nil_sentinel :
    (Request.serialize none = [0] ∧
      (∀ x, Request.serialize (some x) ≠ [0]) ∧
      ∀ x y, x = y → Request.serialize x = Request.serialize y) ∧
    (RequestHeader.serialize none = [0] ∧
      (∀ x, RequestHeader.serialize (some x) ≠ [0]) ∧
      ∀ x y, x = y → RequestHeader.serialize x = RequestHeader.serialize y) ∧
    (SignedRequestHeader.serialize none = [0] ∧
      (∀ x, SignedRequestHeader.serialize (some x) ≠ [0]) ∧
      ∀ x y, x = y →
        SignedRequestHeader.serialize x = SignedRequestHeader.serialize y) ∧
    (RequestPayload.serialize none = [0] ∧
      (∀ x, RequestPayload.serialize (some x) ≠ [0]) ∧
      ∀ x y, x = y → RequestPayload.serialize x = RequestPayload.serialize y) ∧
    (Response.serialize none = [0] ∧
      (∀ x, Response.serialize (some x) ≠ [0]) ∧
      ∀ x y, x = y → Response.serialize x = Response.serialize y) ∧
    (ResponseHeader.serialize none = [0] ∧
      (∀ x, ResponseHeader.serialize (some x) ≠ [0]) ∧
      ∀ x y, x = y → ResponseHeader.serialize x = ResponseHeader.serialize y) ∧
    (ResponsePayload.serialize none = [0] ∧
      (∀ x, ResponsePayload.serialize (some x) ≠ [0]) ∧
      ∀ x y, x = y → ResponsePayload.serialize x = ResponsePayload.serialize y) ∧
    (SignedResponseHeader.serialize none = [0] ∧
      (∀ x, SignedResponseHeader.serialize (some x) ≠ [0]) ∧
      ∀ x y, x = y →
        SignedResponseHeader.serialize x = SignedResponseHeader.serialize y) ∧
    (Ack.serialize none = [0] ∧
      (∀ x, Ack.serialize (some x) ≠ [0]) ∧
      ∀ x y, x = y → Ack.serialize x = Ack.serialize y) ∧
    (AckHeader.serialize none = [0] ∧
      (∀ x, AckHeader.serialize (some x) ≠ [0]) ∧
      ∀ x y, x = y → AckHeader.serialize x = AckHeader.serialize y) ∧
    (SignedAckHeader.serialize none = [0] ∧
      (∀ x, SignedAckHeader.serialize (some x) ≠ [0]) ∧
      ∀ x y, x = y → SignedAckHeader.serialize x = SignedAckHeader.serialize y) ∧
    (NoAckReport.serialize none = [0] ∧
      (∀ x, NoAckReport.serialize (some x) ≠ [0]) ∧
      ∀ x y, x = y → NoAckReport.serialize x = NoAckReport.serialize y) ∧
    (NoAckReportHeader.serialize none = [0] ∧
      (∀ x, NoAckReportHeader.serialize (some x) ≠ [0]) ∧
      ∀ x y, x = y →
        NoAckReportHeader.serialize x = NoAckReportHeader.serialize y) ∧
    (SignedNoAckReportHeader.serialize none = [0] ∧
      (∀ x, SignedNoAckReportHeader.serialize (some x) ≠ [0]) ∧
      ∀ x y, x = y →
        SignedNoAckReportHeader.serialize x = SignedNoAckReportHeader.serialize y) ∧
    (AggrNoAckReport.serialize none = [0] ∧
      (∀ x, AggrNoAckReport.serialize (some x) ≠ [0]) ∧
      ∀ x y, x = y → AggrNoAckReport.serialize x = AggrNoAckReport.serialize y) ∧
    (AggrNoAckReportHeader.serialize none = [0] ∧
      (∀ x, AggrNoAckReportHeader.serialize (some x) ≠ [0]) ∧
      ∀ x y, x = y →
        AggrNoAckReportHeader.serialize x = AggrNoAckReportHeader.serialize y) ∧
    (SignedAggrNoAckReportHeader.serialize none = [0] ∧
      (∀ x, SignedAggrNoAckReportHeader.serialize (some x) ≠ [0]) ∧
      ∀ x y, x = y →
        SignedAggrNoAckReportHeader.serialize x =
          SignedAggrNoAckReportHeader.serialize y) := by
  refine ⟨⟨rfl, fun x => encOpt_some_ne_sentinel encRequest x,
      fun x y h => by rw [h]⟩,
    ⟨rfl, fun x => encOpt_some_ne_sentinel encRequestHeader x,
      fun x y h => by rw [h]⟩,
    ⟨rfl, fun x => encOpt_some_ne_sentinel encSignedRequestHeader x,
      fun x y h => by rw [h]⟩,
    ⟨rfl, fun x => encOpt_some_ne_sentinel encRequestPayload x,
      fun x y h => by rw [h]⟩,
    ⟨rfl, fun x => encOpt_some_ne_sentinel encResponse x,
      fun x y h => by rw [h]⟩,
    ⟨rfl, fun x => encOpt_some_ne_sentinel encResponseHeader x,
      fun x y h => by rw [h]⟩,
    ⟨rfl, fun x => encOpt_some_ne_sentinel encResponsePayload x,
      fun x y h => by rw [h]⟩,
    ⟨rfl, fun x => encOpt_some_ne_sentinel encSignedResponseHeader x,
      fun x y h => by rw [h]⟩,
    ⟨rfl, fun x => encOpt_some_ne_sentinel encAck x,
      fun x y h => by rw [h]⟩,
    ⟨rfl, fun x => encOpt_some_ne_sentinel encAckHeader x,
      fun x y h => by rw [h]⟩,
    ⟨rfl, fun x => encOpt_some_ne_sentinel encSignedAckHeader x,
      fun x y h => by rw [h]⟩,
    ⟨rfl, fun x => encOpt_some_ne_sentinel encNoAckReport x,
      fun x y h => by rw [h]⟩,
    ⟨rfl, fun x => encOpt_some_ne_sentinel encNoAckReportHeader x,
      fun x y h => by rw [h]⟩,
    ⟨rfl, fun x => encOpt_some_ne_sentinel encSignedNoAckReportHeader x,
      fun x y h => by rw [h]⟩,
    ⟨rfl, fun x => encOpt_some_ne_sentinel encAggrNoAckReport x,
      fun x y h => by rw [h]⟩,
    ⟨rfl, fun x => encOpt_some_ne_sentinel encAggrNoAckReportHeader x,
      fun x y h => by rw [h]⟩,
    ⟨rfl, fun x => encOpt_some_ne_sentinel encSignedAggrNoAckReportHeader x,
      fun x y h => by rw [h]⟩⟩

/-- Witness for C8 at concrete values (including the empty request
payload, whose populated encoding still differs from the sentinel). -/
theorem claim_C8_witness :
    Request.serialize none = [0] ∧
    Request.serialize (some request0) ≠ [0] ∧
    RequestPayload.serialize (some ⟨[]⟩) ≠ [0] ∧
    Request.serialize (some request0) = Request.serialize (some request0) := by
  refine ⟨claim_C8_nil_sentinel.1.1, claim_C8_nil_sentinel.1.2.1 request0,
    claim_C8_nil_sentinel.2.2.2.1.2.1 ⟨[]⟩,
    claim_C8_nil_sentinel.1.2.2 (some request0) (some request0) rfl⟩

/-- C9 counterexample: verification is not a pure function of the message
value alone — the process-wide BypassSignature flag (bound to the
-bypass-signature CLI flag in cmd/cql/internal/cfg.go) changes the outcome
of verify on one and the same header value. -/
theorem claim_C9_counterexample :
    SignedRequestHeader.verify true srhBad0 ≠
      SignedRequestHeader.verify false srhBad0 := by
  have h1 : SignedRequestHeader.verify true srhBad0 = .ok () := rfl
  have h2 : SignedRequestHeader.verify false srhBad0 =
      .error .ErrSignVerification := rfl
  rw [h1, h2]
  intro hcon
  exact Except.noConfusion hcon

/-- C9 amended: canonical encoding and digest computation take no process
state, and the only effect the process-wide bypass flag can have on
verification is to convert a signature-verification failure into success —
whenever the flag changes the outcome of verify on a header value, the
outcome with the flag clear is exactly the signature-verification failure
and the outcome with the flag set is success. -/
theorem claim_C9_amended_flag_only_skips_signature :
    ∀ sh : SignedRequestHeader,
      SignedRequestHeader.verify true sh ≠ SignedRequestHeader.verify false sh →
      SignedRequestHeader.verify false sh = .error .ErrSignVerification ∧
      SignedRequestHeader.verify true sh = .ok () := by
  intro sh hne
  unfold SignedRequestHeader.verify at hne ⊢
  cases hv : verifyHashB sh.hashInput sh.headerHash with
  | error e =>
    rw [hv] at hne
    exact absurd rfl hne
  | ok u =>
    cases u
    rw [hv, seqE_ok_left, seqE_ok_left] at hne
    rw [seqE_ok_left, seqE_ok_left]
    unfold checkSig at hne ⊢
    cases hsg : sh.signee with
    | none =>
      rw [hsg] at hne
      exact absurd rfl hne
    | some pk =>
      cases hsig : sh.signature with
      | none =>
        rw [hsg, hsig] at hne
        exact absurd rfl hne
      | some sg =>
        rw [hsg, hsig] at hne
        dsimp only at hne ⊢
        by_cases hp : pubOf sg.signer = pk ∧ sg.digest = sh.headerHash
        · exact absurd (if_pos hp).symm hne
        · exact ⟨if_neg hp, rfl⟩

/-- Witness for the C9 amended claim at the concrete mis-signed header. -/
theorem claim_C9_amended_witness :
    (SignedRequestHeader.verify true srhBad0 ≠
      SignedRequestHeader.verify false srhBad0) ∧
    SignedRequestHeader.verify false srhBad0 = .error .ErrSignVerification ∧
    SignedRequestHeader.verify true srhBad0 = .ok () := by
  have hne : SignedRequestHeader.verify true srhBad0 ≠
      SignedRequestHeader.verify false srhBad0 := by
    have h1 : SignedRequestHeader.verify true srhBad0 = .ok () := rfl
    have h2 : SignedRequestHeader.verify false srhBad0 =
        .error .ErrSignVerification := rfl
    rw [h1, h2]
    intro hcon
    exact Except.noConfusion hcon
  exact ⟨hne, (claim_C9_amended_flag_only_skips_signature srhBad0 hne).1,
    (claim_C9_amended_flag_only_skips_signature srhBad0 hne).2⟩

/-- C10: serialization is total over nil optional fields inside a populated
message: for every signed Request, Response, Ack, NoAckReport or
AggrNoAckReport whose Signee and Signature fields are then cleared,
Serialize still succeeds with a non-empty byte sequence. -/
theorem claim_C10_serialize_total_without_sig :
    (∀ (priv : Nat) (r r1 : Request), Request.sign priv r = .ok r1 →
      Request.serialize (some { r1 with header :=
        { r1.header with signee := none, signature := none } }) ≠ []) ∧
    (∀ (bypass : Bool) (priv : Nat) (r r1 : Response),
      Response.sign bypass priv r = .ok r1 →
      Response.serialize (some { r1 with header :=
        { r1.header with signee := none, signature := none } }) ≠ []) ∧
    (∀ (bypass : Bool) (priv : Nat) (a a1 : Ack),
      Ack.sign bypass priv a = .ok a1 →
      Ack.serialize (some (Ack.mk
        { a1.header with signee := none, signature := none })) ≠ []) ∧
    (∀ (bypass : Bool) (priv : Nat) (r r1 : NoAckReport),
      NoAckReport.sign bypass priv r = .ok r1 →
      NoAckReport.serialize (some (NoAckReport.mk
        { r1.header with signee := none, signature := none })) ≠ []) ∧
    (∀ (bypass : Bool) (priv : Nat) (g g1 : AggrNoAckReport),
      AggrNoAckReport.sign bypass priv g = .ok g1 →
      AggrNoAckReport.serialize (some (AggrNoAckReport.mk
        { g1.header with signee := none, signature := none })) ≠ []) := by
  refine ⟨?_, ?_, ?_, ?_, ?_⟩
  · exact fun priv r r1 h => encOpt_some_ne_nil encRequest _
  · exact fun bypass priv r r1 h => encOpt_some_ne_nil encResponse _
  · exact fun bypass priv a a1 h => encOpt_some_ne_nil encAck _
  · exact fun bypass priv r r1 h => encOpt_some_ne_nil encNoAckReport _
  · exact fun bypass priv g g1 h => encOpt_some_ne_nil encAggrNoAckReport _

/-- Witness for C10 at the five concrete signed messages. -/
theorem claim_C10_witness :
    Request.sign privKey0 request0 = .ok request1 ∧
    Request.serialize (some { request1 with header :=
      { request1.header with signee := none, signature := none } }) ≠ [] ∧
    Response.sign false privKey0 response0 = .ok response1 ∧
    Response.serialize (some { response1 with header :=
      { response1.header with signee := none, signature := none } }) ≠ [] ∧
    Ack.sign false privKey0 ack0 = .ok ack1 ∧
    Ack.serialize (some (Ack.mk
      { ack1.header with signee := none, signature := none })) ≠ [] ∧
    NoAckReport.sign false privKey0 noAck0 = .ok noAck1 ∧
    NoAckReport.serialize (some (NoAckReport.mk
      { noAck1.header with signee := none, signature := none })) ≠ [] ∧
    AggrNoAckReport.sign false privKey0 aggr0 = .ok aggr1 ∧
    AggrNoAckReport.serialize (some (AggrNoAckReport.mk
      { aggr1.header with signee := none, signature := none })) ≠ [] := by
  refine ⟨by rfl, ?_, by rfl, ?_, by rfl, ?_, by rfl, ?_, by rfl, ?_⟩
  · exact claim_C10_serialize_total_without_sig.1 privKey0 request0 request1
      (by rfl)
  · exact claim_C10_serialize_total_without_sig.2.1 false privKey0 response0
      response1 (by rfl)
  · exact claim_C10_serialize_total_without_sig.2.2.1 false privKey0 ack0 ack1
      (by rfl)
  · exact claim_C10_serialize_total_without_sig.2.2.2.1 false privKey0 noAck0
      noAck1 (by rfl)
  · exact claim_C10_serialize_total_without_sig.2.2.2.2 false privKey0 aggr0
      aggr1 (by rfl)

end WorkerTypes
